import Mathlib

/-!
Shallow embedding of the chimney draft calculation engine
(`chimney_calculator.py` and `enhanced_calculator.py`).

Python floats are modelled as exact rationals (`ℚ`); Python's `math.pi`
is modelled as an explicit parameter `piVal` of the functions that use it,
so that all definitions stay executable and the theorems quantify over it.
Python dictionaries with fixed key sets become structures; dictionaries
used as lookup tables become association lists (`List (String × ℚ)`),
preserving insertion order.  Functions that can raise return
`Except String _` (for `ValueError`) or `Option _` (for pipelines where
any raised exception propagates, including `IndexError`/`KeyError` on
missing elements).
-/

/-- `ChimneyCalculator.standard_barometric_pressure`: 29.92 inHg. -/
def standard_barometric_pressure : ℚ := 29.92

/-- `self.R`: gas constant for air, 53.35 ft·lbf/(lbm·°R). -/
def gas_constant_R : ℚ := 53.35

/-- `ChimneyCalculator.air_density`: rho = P / (R * temp_r) with
P = 2116.2 lbf/ft² and temp_r = temp_f + 459.67. -/
def air_density (temp_f : ℚ) : ℚ :=
  let temp_r := temp_f + 459.67
  2116.2 / (gas_constant_R * temp_r)

/-- Result dictionary of `mass_flow_from_fuel_input`. -/
structure MassFlowResult where
  mass_flow_lbm_hr : ℚ
  mass_flow_lbm_min : ℚ
  M_factor : ℚ
  fuel_type : String
  mbh : ℚ
  co2_percent : ℚ
  deriving DecidableEq, Repr, Inhabited

/-- `str.lower()`, modelled character by character so that concrete
instances reduce in the kernel. -/
def py_lower (s : String) : String := ⟨s.data.map Char.toLower⟩

/-- `ChimneyCalculator.mass_flow_from_fuel_input`: selects the fuel-specific
regression by the lowercased fuel string and raises `ValueError` (modelled
as `Except.error`) on an unrecognized fuel.  The Python error message
contains quote characters that are dropped here. -/
def mass_flow_from_fuel_input (mbh co2_percent : ℚ) (fuel_type : String) :
    Except String MassFlowResult :=
  let fuel_type_lower := py_lower fuel_type
  if fuel_type_lower ∈ ["natural_gas", "gas", "ng"] then
    let M := 0.705 * (0.159 + (10.72 / co2_percent))
    .ok ⟨M * mbh, M * mbh / 60, M, "natural_gas", mbh, co2_percent⟩
  else if fuel_type_lower ∈ ["lp_gas", "lp", "propane", "lpg"] then
    let M := 0.704 * (0.144 + (12.61 / co2_percent))
    .ok ⟨M * mbh, M * mbh / 60, M, "lp_gas", mbh, co2_percent⟩
  else if fuel_type_lower ∈ ["oil", "fuel_oil", "#2_oil"] then
    let M := 0.72 * (0.12 + (14.4 / co2_percent))
    .ok ⟨M * mbh, M * mbh / 60, M, "oil", mbh, co2_percent⟩
  else
    .error ("Unknown fuel type: " ++ fuel_type ++ ". Use natural_gas, lp_gas, or oil")

/-- Result dictionary of `cfm_from_mass_flow`. -/
structure CfmResult where
  cfm : ℚ
  mass_flow_lbm_min : ℚ
  density_lbm_ft3 : ℚ
  temp_f : ℚ
  deriving DecidableEq, Repr, Inhabited

/-- `ChimneyCalculator.cfm_from_mass_flow`: CFM = mass flow / density. -/
def cfm_from_mass_flow (mass_flow_lbm_min temp_f : ℚ) : CfmResult :=
  let rho := air_density temp_f
  ⟨mass_flow_lbm_min / rho, mass_flow_lbm_min, rho, temp_f⟩

/-- Result dictionary of `cfm_from_combustion`. -/
structure CombustionResult where
  cfm : ℚ
  mass_flow_lbm_hr : ℚ
  mass_flow_lbm_min : ℚ
  M_factor : ℚ
  mbh : ℚ
  co2_percent : ℚ
  temp_f : ℚ
  fuel_type : String
  density_lbm_ft3 : ℚ
  deriving DecidableEq, Repr, Inhabited

/-- `ChimneyCalculator.cfm_from_combustion`: chains
`mass_flow_from_fuel_input` and `cfm_from_mass_flow`. -/
def cfm_from_combustion (mbh co2_percent temp_f : ℚ) (fuel_type : String) :
    Except String CombustionResult :=
  (mass_flow_from_fuel_input mbh co2_percent fuel_type).map (fun mass_result =>
    let cfm_result := cfm_from_mass_flow mass_result.mass_flow_lbm_min temp_f
    ⟨cfm_result.cfm, mass_result.mass_flow_lbm_hr, mass_result.mass_flow_lbm_min,
     mass_result.M_factor, mbh, co2_percent, temp_f, mass_result.fuel_type,
     cfm_result.density_lbm_ft3⟩)

/-- `Option`-valued variant of `cfm_from_combustion` for the multi-appliance
pipelines, where a raised exception simply propagates. -/
def cfm_from_combustion_opt (mbh co2_percent temp_f : ℚ) (fuel_type : String) :
    Option CombustionResult :=
  (cfm_from_combustion mbh co2_percent temp_f fuel_type).toOption

/-- `ChimneyCalculator.theoretical_draft`:
draft = 0.2554 * B * H * (1/To_R - 1/Tf_R); `B` defaults to 29.92 when the
argument is `None`. -/
def theoretical_draft (height_ft temp_flue_gas_f temp_outside_f : ℚ)
    (barometric_pressure_inHg : Option ℚ) : ℚ :=
  let B := barometric_pressure_inHg.getD standard_barometric_pressure
  let temp_outside_r := temp_outside_f + 459.67
  let temp_flue_gas_r := temp_flue_gas_f + 459.67
  0.2554 * B * height_ft * (1 / temp_outside_r - 1 / temp_flue_gas_r)

/-- `ChimneyCalculator.velocity_from_cfm`: `piVal` stands for `math.pi`. -/
def velocity_from_cfm (piVal cfm diameter_inches : ℚ) : ℚ :=
  let area_ft2 := piVal * (diameter_inches / 12) ^ 2 / 4
  let velocity_fpm := cfm / area_ft2
  velocity_fpm / 60

/-- `ChimneyCalculator.cfm_from_velocity`: `piVal` stands for `math.pi`. -/
def cfm_from_velocity (piVal velocity_fps diameter_inches : ℚ) : ℚ :=
  let area_ft2 := piVal * (diameter_inches / 12) ^ 2 / 4
  velocity_fps * 60 * area_ft2

/-- `ChimneyCalculator.available_draft`: theoretical draft minus loss. -/
def available_draft (theoretical_draft_inwc total_loss_inwc : ℚ) : ℚ :=
  theoretical_draft_inwc - total_loss_inwc

/-- `self.standard_diameters` (inches). -/
def standard_diameters : List ℚ :=
  [3, 4, 5, 6, 7, 8, 10, 12, 14, 16, 18, 20, 24, 30, 36]

/-- `self.fittings`: generic fitting loss coefficients, in insertion order. -/
def fittings_generic : List (String × ℚ) :=
  [("entrance", 0.5),
   ("15_elbow", 0.15),
   ("30_elbow", 0.25),
   ("45_elbow", 0.4),
   ("90_elbow", 0.9),
   ("straight_tee", 0.6),
   ("90_tee_branch", 1.3),
   ("lateral_tee", 0.8),
   ("termination_cap", 1.0),
   ("tee_cap", 0.6),
   ("exit", 1.0)]

/-- `self.base_friction_factor` for the generic calculation. -/
def base_friction_factor : ℚ := 0.3

/-- `self.fitting_coefficients_by_vent_type`: vent-type specific K-value
tables; `base_friction_factor` is a key inside each table, as in the
Python dictionaries. -/
def fitting_coefficients_by_vent_type : List (String × List (String × ℚ)) :=
  [("UL441 Type B Vent",
    [("entrance", 0.5), ("15_elbow", 0.12), ("30_elbow", 0.12),
     ("45_elbow", 0.25), ("90_elbow", 0.75), ("straight_tee", 1.25),
     ("90_tee_branch", 1.25), ("lateral_tee", 0.40), ("exit", 1.0),
     ("termination_cap", 0.50), ("tee_cap", 0.3),
     ("base_friction_factor", 0.40)]),
   ("UL1738 Special Gas Vent",
    [("entrance", 0.5), ("15_elbow", 0.12), ("30_elbow", 0.12),
     ("45_elbow", 0.15), ("90_elbow", 0.30), ("straight_tee", 1.25),
     ("90_tee_branch", 1.25), ("lateral_tee", 0.55), ("exit", 1.0),
     ("termination_cap", 0.50), ("tee_cap", 0.35),
     ("base_friction_factor", 0.27)]),
   ("UL103 Pressure Chimney",
    [("entrance", 0.5), ("15_elbow", 0.12), ("30_elbow", 0.12),
     ("45_elbow", 0.15), ("90_elbow", 0.30), ("straight_tee", 1.25),
     ("90_tee_branch", 1.25), ("lateral_tee", 0.40), ("exit", 1.0),
     ("termination_cap", 0.50), ("tee_cap", 0.25),
     ("base_friction_factor", 0.30)])]

/-- Dictionary lookup on an association list (`d[key]` / `key in d`). -/
def alist_lookup (tbl : List (String × ℚ)) (key : String) : Option ℚ :=
  (tbl.find? (fun p => p.1 == key)).map (fun p => p.2)

/-- `vent_type and vent_type in self.fitting_coefficients_by_vent_type`:
returns the vent-specific table when the vent type names a known profile. -/
def resolve_vent_profile (vent_type : Option String) : Option (List (String × ℚ)) :=
  vent_type.bind (fun vt =>
    (fitting_coefficients_by_vent_type.find? (fun p => p.1 == vt)).map (fun p => p.2))

/-- One entry of the `fitting_breakdown` dictionary:
(fitting type, quantity, k_each, k_total). -/
structure FittingEntry where
  fitting_type : String
  quantity : ℚ
  k_each : ℚ
  k_total : ℚ
  deriving DecidableEq, Repr, Inhabited

/-- One iteration of the fitting loop in `pressure_loss`: look the fitting
up in the resolved table, fall back to the generic table, silently skip
fittings present in neither. -/
def fitting_step (fitting_k_values : List (String × ℚ))
    (acc : ℚ × List FittingEntry) (p : String × ℚ) : ℚ × List FittingEntry :=
  match alist_lookup fitting_k_values p.1 with
  | some k => (acc.1 + k * p.2, acc.2 ++ [⟨p.1, p.2, k, k * p.2⟩])
  | none =>
    match alist_lookup fittings_generic p.1 with
    | some k => (acc.1 + k * p.2, acc.2 ++ [⟨p.1, p.2, k, k * p.2⟩])
    | none => acc

/-- Result dictionary of `pressure_loss`. -/
structure PressureLossResult where
  friction : ℚ
  fittings : ℚ
  calculated_loss : ℚ
  additional_pressure_loss : ℚ
  total : ℚ
  friction_term : ℚ
  base_friction_factor : ℚ
  sum_k : ℚ
  additional_k : ℚ
  fitting_breakdown : List FittingEntry
  density_lbm_ft3 : ℚ
  velocity_fpm : ℚ
  vent_type : String
  deriving DecidableEq, Repr, Inhabited

/-- `ChimneyCalculator.pressure_loss`: ASHRAE equation
dP = (f*(L/D) + sum_k) * rho * (V/1096.2)^2 + additional_pressure_loss,
with vent-type-specific coefficients when `vent_type` names a known
profile and the generic table otherwise. -/
def pressure_loss (length_ft diameter_inches velocity_fpm temp_f : ℚ)
    (fittings_dict : List (String × ℚ)) (vent_type : Option String)
    (additional_k : ℚ) (additional_pressure_loss : ℚ) : PressureLossResult :=
  let rho := air_density temp_f
  let resolved := resolve_vent_profile vent_type
  let fitting_k_values := resolved.getD fittings_generic
  let base_friction :=
    match resolved with
    | some tbl => (alist_lookup tbl "base_friction_factor").getD 0.3
    | none => base_friction_factor
  let friction_term := base_friction * (length_ft / diameter_inches)
  let acc := fittings_dict.foldl (fitting_step fitting_k_values) (0, [])
  let with_additional :=
    if 0 < additional_k then
      (acc.1 + additional_k, acc.2 ++ [⟨"additional_k_resistance", 1, additional_k, additional_k⟩])
    else acc
  let sum_k := with_additional.1
  let velocity_term := (velocity_fpm / 1096.2) ^ 2
  let calculated_loss := (friction_term + sum_k) * rho * velocity_term
  let total_loss := calculated_loss + additional_pressure_loss
  { friction := friction_term * rho * velocity_term
    fittings := sum_k * rho * velocity_term
    calculated_loss := calculated_loss
    additional_pressure_loss := additional_pressure_loss
    total := total_loss
    friction_term := friction_term
    base_friction_factor := base_friction
    sum_k := sum_k
    additional_k := additional_k
    fitting_breakdown := with_additional.2
    density_lbm_ft3 := rho
    velocity_fpm := velocity_fpm
    vent_type :=
      match vent_type with
      | some s => if s = "" then "Generic" else s
      | none => "Generic" }

/-- `system_config` dictionary passed to `total_pressure_loss`. -/
structure SystemConfig where
  length_ft : ℚ
  diameter_inches : ℚ
  fittings : List (String × ℚ)
  deriving DecidableEq, Repr, Inhabited

/-- Result dictionary of `total_pressure_loss`. -/
structure TotalLossResult where
  friction : ℚ
  total_fittings : ℚ
  total : ℚ
  fittings : List FittingEntry
  details : PressureLossResult
  deriving DecidableEq, Repr, Inhabited

/-- `ChimneyCalculator.total_pressure_loss`: converts ft/s to ft/min and
calls `pressure_loss`; no `vent_type`, `additional_k` or
`additional_pressure_loss` argument is forwarded, so the Python defaults
(`None`, 0, 0) always apply here. -/
def total_pressure_loss (system_config : SystemConfig) (velocity_fps temp_f : ℚ) :
    TotalLossResult :=
  let velocity_fpm := velocity_fps * 60
  let losses := pressure_loss system_config.length_ft system_config.diameter_inches
    velocity_fpm temp_f system_config.fittings none 0 0
  ⟨losses.friction, losses.fittings, losses.total, losses.fitting_breakdown, losses⟩

/-- One row of the `results` table built by `select_diameter`. -/
structure DiameterOption where
  diameter_inches : ℚ
  velocity_fps : ℚ
  theoretical_draft_inwc : ℚ
  pressure_loss_inwc : ℚ
  available_draft_inwc : ℚ
  meets_requirement : Bool
  loss_breakdown : TotalLossResult
  deriving DecidableEq, Repr, Inhabited

/-- Result of `select_diameter`.  The Python function returns either the
selected option dictionary augmented with `all_options`, or an error
dictionary with `diameter_inches = None`; here `selected = none` together
with `error = some _` is the sentinel shape. -/
structure SelectDiameterResult where
  selected : Option DiameterOption
  error : Option String
  all_options : List DiameterOption
  deriving DecidableEq, Repr, Inhabited

/-- The per-diameter evaluation inside `select_diameter`'s loop. -/
def diameter_option (piVal cfm temp_flue_gas_f : ℚ) (theoretical : ℚ)
    (system_config : SystemConfig) (min_available_draft_inwc : ℚ) (diameter : ℚ) :
    DiameterOption :=
  let velocity := velocity_from_cfm piVal cfm diameter
  let config := { system_config with diameter_inches := diameter }
  let losses := total_pressure_loss config velocity temp_flue_gas_f
  let available := available_draft theoretical losses.total
  ⟨diameter, velocity, theoretical, losses.total, available,
   decide (min_available_draft_inwc ≤ available), losses⟩

/-- `ChimneyCalculator.select_diameter`: evaluates every standard diameter,
filters those meeting the requirement and returns the first (smallest), or
the sentinel result when none qualifies.  `system_config` plays the role of
the Python config dictionary whose `diameter_inches` entry is overwritten
per candidate. -/
def select_diameter (piVal cfm height_ft temp_flue_gas_f temp_outside_f : ℚ)
    (system_config : SystemConfig) (min_available_draft_inwc : ℚ)
    (barometric_pressure_inHg : Option ℚ) : SelectDiameterResult :=
  let theoretical := theoretical_draft height_ft temp_flue_gas_f temp_outside_f
    barometric_pressure_inHg
  let results := standard_diameters.map
    (diameter_option piVal cfm temp_flue_gas_f theoretical system_config
      min_available_draft_inwc)
  let suitable := results.filter (fun r => r.meets_requirement)
  match suitable with
  | selected :: _ => ⟨some selected, none, results⟩
  | [] => ⟨none, some "No standard diameter meets the minimum draft requirement", results⟩

/-- Result dictionary of `analyze_system`. -/
structure SystemAnalysis where
  cfm : ℚ
  diameter_inches : ℚ
  velocity_fps : ℚ
  height_ft : ℚ
  length_ft : ℚ
  temp_flue_gas_f : ℚ
  temp_outside_f : ℚ
  barometric_pressure_inHg : ℚ
  theoretical_draft_inwc : ℚ
  pressure_loss_inwc : ℚ
  available_draft_inwc : ℚ
  loss_breakdown : TotalLossResult
  fittings : List (String × ℚ)
  deriving DecidableEq, Repr, Inhabited

/-- Python truthiness of `barometric_pressure_inHg or 29.92`: `None` and
`0.0` are falsy, so both yield the standard pressure in the echo field. -/
def baro_or_standard (b : Option ℚ) : ℚ :=
  match b with
  | some v => if v = 0 then standard_barometric_pressure else v
  | none => standard_barometric_pressure

/-- `ChimneyCalculator.analyze_system`: complete single-run analysis. -/
def analyze_system (piVal cfm diameter_inches height_ft length_ft
    temp_flue_gas_f temp_outside_f : ℚ) (fittings_dict : List (String × ℚ))
    (barometric_pressure_inHg : Option ℚ) : SystemAnalysis :=
  let theoretical := theoretical_draft height_ft temp_flue_gas_f temp_outside_f
    barometric_pressure_inHg
  let velocity := velocity_from_cfm piVal cfm diameter_inches
  let config : SystemConfig := ⟨length_ft, diameter_inches, fittings_dict⟩
  let losses := total_pressure_loss config velocity temp_flue_gas_f
  let available := available_draft theoretical losses.total
  ⟨cfm, diameter_inches, velocity, height_ft, length_ft, temp_flue_gas_f,
   temp_outside_f, baro_or_standard barometric_pressure_inHg, theoretical,
   losses.total, available, losses, fittings_dict⟩

/-- An appliance dictionary of `enhanced_calculator.py`; `fuel_type` and
`category` model `app.get('fuel_type', 'natural_gas')` and
`app.get('category', 'custom')` / `'category' not in appliance`. -/
structure Appliance where
  mbh : ℚ
  co2_percent : ℚ
  temp_f : ℚ
  fuel_type : Option String
  category : Option String
  deriving DecidableEq, Repr, Inhabited

/-- One entry of `appliance_results` in `calculate_combined_cfm`. -/
structure ApplianceEntry where
  appliance_id : ℕ
  mbh : ℚ
  cfm : ℚ
  mass_flow_lbm_min : ℚ
  temp_f : ℚ
  temp_r : ℚ
  category : String
  deriving DecidableEq, Repr, Inhabited

/-- The per-appliance loop of `calculate_combined_cfm`, carrying the
1-based `appliance_id` counter; `none` when `cfm_from_combustion` raises. -/
def appliance_rows : List Appliance → ℕ → Option (List ApplianceEntry)
  | [], _ => some []
  | app :: rest, i => do
    let comb ← cfm_from_combustion_opt app.mbh app.co2_percent app.temp_f
      (app.fuel_type.getD "natural_gas")
    let others ← appliance_rows rest (i + 1)
    pure (⟨i, app.mbh, comb.cfm, comb.mass_flow_lbm_min, app.temp_f,
      app.temp_f + 459.67, app.category.getD "custom"⟩ :: others)

/-- Result dictionary of `calculate_combined_cfm`; the source returns the
mixed temperature both as `weighted_avg_temp_f` and inside `mixing_info`,
and the `total_cfm` key holds the CFM recomputed at the mixed temperature
(the naive per-appliance CFM sum accumulated by the Python loop is never
returned). -/
structure CombinedResult where
  total_cfm : ℚ
  total_mass_flow_lbm_min : ℚ
  weighted_avg_temp_f : ℚ
  num_appliances : ℕ
  appliance_results : List ApplianceEntry
  mixed_temp_f : ℚ
  density_at_mixed_temp : ℚ
  deriving DecidableEq, Repr, Inhabited

/-- `EnhancedChimneyCalculator.calculate_combined_cfm`: adiabatic
mass-weighted mixing of the appliance flue streams.  `none` models a raised
exception (unknown fuel, or `IndexError` on `appliances[0]` when the list is
empty and total mass flow is not positive). -/
def calculate_combined_cfm (appliances : List Appliance) : Option CombinedResult :=
  match appliance_rows appliances 1 with
  | none => none
  | some entries =>
    let total_mass_flow_lbm_min := (entries.map (fun e => e.mass_flow_lbm_min)).sum
    let mixed? : Option ℚ :=
      if 0 < total_mass_flow_lbm_min then
        some ((entries.map (fun e => e.mass_flow_lbm_min * e.temp_r)).sum /
          total_mass_flow_lbm_min - 459.67)
      else
        (appliances.head?).map (fun a => a.temp_f)
    match mixed? with
    | none => none
    | some mixed_temp_f =>
      let rho_mixed := air_density mixed_temp_f
      some ⟨total_mass_flow_lbm_min / rho_mixed, total_mass_flow_lbm_min,
        mixed_temp_f, appliances.length, entries, mixed_temp_f, rho_mixed⟩

/-- A connector configuration dictionary; `height_ft` models
`connector_config.get('height_ft', 0)`. -/
structure ConnectorConfig where
  diameter_inches : ℚ
  length_ft : ℚ
  height_ft : Option ℚ
  fittings : List (String × ℚ)
  deriving DecidableEq, Repr, Inhabited

/-- Result dictionary of `analyze_connector`. -/
structure ConnectorResult where
  connector : SystemAnalysis
  cfm : ℚ
  appliance : Appliance
  deriving DecidableEq, Repr, Inhabited

/-- `EnhancedChimneyCalculator.analyze_connector`: individual appliance
connector analysis at the appliance's own flue temperature. -/
def analyze_connector (piVal : ℚ) (appliance : Appliance)
    (connector_config : ConnectorConfig) (temp_outside_f : ℚ) :
    Option ConnectorResult :=
  (cfm_from_combustion_opt appliance.mbh appliance.co2_percent appliance.temp_f
    (appliance.fuel_type.getD "natural_gas")).map (fun combustion =>
      let result := analyze_system piVal combustion.cfm
        connector_config.diameter_inches (connector_config.height_ft.getD 0)
        connector_config.length_ft appliance.temp_f temp_outside_f
        connector_config.fittings none
      ⟨result, combustion.cfm, appliance⟩)

/-- The manifold / common-vent configuration dictionary. -/
structure ManifoldConfig where
  diameter_inches : ℚ
  height_ft : ℚ
  length_ft : ℚ
  fittings : List (String × ℚ)
  deriving DecidableEq, Repr, Inhabited

/-- `max(appliances, key=lambda x: x['mbh'])`: first appliance with the
maximal `mbh` (Python `max` keeps the earliest maximum). -/
def first_max_mbh (a : Appliance) (l : List Appliance) : Appliance :=
  l.foldl (fun cur x => if cur.mbh < x.mbh then x else cur) a

/-- `min(appliances, key=lambda x: x['mbh'])`: first appliance with the
minimal `mbh`. -/
def first_min_mbh (a : Appliance) (l : List Appliance) : Appliance :=
  l.foldl (fun cur x => if x.mbh < cur.mbh then x else cur) a

/-- The operating-subset selection at the top of `analyze_manifold_system`;
the string parameter is the source's `operating_scenario` argument.  `none`
models the `ValueError` that Python's `max`/`min` raise on an empty list;
`sorted(..., reverse=True)` is a stable descending sort by `mbh`. -/
def select_operating (appliances : List Appliance) (op_mode : String) :
    Option (List Appliance) :=
  if op_mode = "all" then some appliances
  else if op_mode = "all_minus_one" then
    some ((appliances.mergeSort (fun a b => decide (b.mbh ≤ a.mbh))).drop 1)
  else if op_mode = "single_largest" then
    match appliances with
    | [] => none
    | a :: rest => some [first_max_mbh a rest]
  else if op_mode = "single_smallest" then
    match appliances with
    | [] => none
    | a :: rest => some [first_min_mbh a rest]
  else some appliances

/-- Result dictionary of `analyze_manifold_system`; `op_mode` is the
source's `scenario` key. -/
structure ManifoldResult where
  op_mode : String
  num_operating : ℕ
  combined : CombinedResult
  common_vent : SystemAnalysis
  operating_appliances : List Appliance
  deriving DecidableEq, Repr, Inhabited

/-- `EnhancedChimneyCalculator.analyze_manifold_system`: combined CFM of
the operating subset, then a full `analyze_system` run on the common vent
at the mixed condition. -/
def analyze_manifold_system (piVal : ℚ) (appliances : List Appliance)
    (manifold_config : ManifoldConfig) (temp_outside_f : ℚ) (op_mode : String) :
    Option ManifoldResult := do
  let operating ← select_operating appliances op_mode
  let combined ← calculate_combined_cfm operating
  let common_result := analyze_system piVal combined.total_cfm
    manifold_config.diameter_inches manifold_config.height_ft
    manifold_config.length_ft combined.weighted_avg_temp_f temp_outside_f
    manifold_config.fittings none
  pure ⟨op_mode, operating.length, combined, common_result, operating⟩

/-- One entry of `worst_case_results` in `analyze_worst_case_appliance`. -/
structure WorstCaseEntry where
  appliance_id : ℕ
  appliance : Appliance
  connector_draft : ℚ
  manifold_draft : ℚ
  total_available_draft : ℚ
  connector_result : ConnectorResult
  manifold_result : ManifoldResult
  deriving DecidableEq, Repr, Inhabited

/-- The per-appliance loop of `analyze_worst_case_appliance`, walking the
appliances together with `connector_configs[i]` (a missing connector config
is Python's `KeyError`, modelled as `none`).  `all_apps` is the full
appliance list, used for the manifold `all` analysis on every iteration. -/
def worst_case_rows (piVal : ℚ) (all_apps : List Appliance)
    (manifold_config : ManifoldConfig) (temp_outside_f : ℚ) :
    List Appliance → List ConnectorConfig → ℕ → Option (List WorstCaseEntry)
  | [], _, _ => some []
  | _ :: _, [], _ => none
  | app :: apps, cc :: ccs, i => do
    let connector_result ← analyze_connector piVal app cc temp_outside_f
    let manifold_all ← analyze_manifold_system piVal all_apps manifold_config
      temp_outside_f "all"
    let rest ← worst_case_rows piVal all_apps manifold_config temp_outside_f
      apps ccs (i + 1)
    let total_available_draft :=
      connector_result.connector.available_draft_inwc +
      manifold_all.common_vent.available_draft_inwc
    pure (⟨i, app, connector_result.connector.available_draft_inwc,
      manifold_all.common_vent.available_draft_inwc, total_available_draft,
      connector_result, manifold_all⟩ :: rest)

/-- `min(worst_case_results, key=lambda x: x['total_available_draft'])`:
first entry with the minimal total available draft. -/
def min_by_total (e : WorstCaseEntry) (l : List WorstCaseEntry) : WorstCaseEntry :=
  l.foldl (fun cur x => if x.total_available_draft < cur.total_available_draft then x else cur) e

/-- Result dictionary of `analyze_worst_case_appliance`. -/
structure WorstCaseAnalysis where
  worst_case : WorstCaseEntry
  all_appliances : List WorstCaseEntry
  deriving DecidableEq, Repr, Inhabited

/-- `EnhancedChimneyCalculator.analyze_worst_case_appliance`: per-appliance
connector + manifold-`all` available draft, worst case = minimum total.
`none` covers the exceptions the Python code can raise (unknown fuel,
missing connector config, and `min` of the empty list). -/
def analyze_worst_case_appliance (piVal : ℚ) (appliances : List Appliance)
    (connector_configs : List ConnectorConfig) (manifold_config : ManifoldConfig)
    (temp_outside_f : ℚ) : Option WorstCaseAnalysis := do
  let rows ← worst_case_rows piVal appliances manifold_config temp_outside_f
    appliances connector_configs 1
  match rows with
  | [] => none
  | e :: rest => pure ⟨min_by_total e rest, e :: rest⟩

/-- One entry of `self.appliance_categories`. -/
structure CategoryInfo where
  name : String
  co2_default : ℚ
  temp_default : ℚ
  pressure_min : ℚ
  pressure_max : ℚ
  description : String
  deriving DecidableEq, Repr, Inhabited

/-- `self.appliance_categories` (ANSI Z21.47/CSA 2.3 categories). -/
def appliance_categories : List (String × CategoryInfo) :=
  [("cat_i_fan",
    ⟨"Category I - Fan Assisted", 6.8, 320, -0.08, -0.03,
     "Fan-assisted with non-positive vent pressure"⟩),
   ("cat_ii",
    ⟨"Category II - Non-Condensing", 8.5, 285, -0.08, -0.03,
     "Non-condensing with non-positive vent pressure"⟩),
   ("cat_iii",
    ⟨"Category III - Non-Condensing", 8.0, 320, 0.00, 0.08,
     "Non-condensing with positive vent pressure"⟩),
   ("cat_iv",
    ⟨"Category IV - Condensing", 8.5, 275, -0.05, 0.25,
     "Condensing with positive vent pressure"⟩)]

/-- `appliance['category'] in self.appliance_categories` lookup. -/
def lookup_category (key : String) : Option CategoryInfo :=
  (appliance_categories.find? (fun p => p.1 == key)).map (fun p => p.2)

/-- Result dictionary of `check_appliance_pressure_limits`; keys absent
from a given Python return dictionary are `none` here. -/
structure ComplianceResult where
  compliant : Option Bool
  available_draft : Option ℚ
  required_range : Option (ℚ × ℚ)
  category : Option String
  issue : Option String
  message : String
  recommendation : Option String
  deriving DecidableEq, Repr, Inhabited

/-- `EnhancedChimneyCalculator.check_appliance_pressure_limits`: checks
`min <= available_draft <= max` against the category's pressure range and
returns the indeterminate sentinel (`compliant = None`) for a missing or
unknown category. -/
def check_appliance_pressure_limits (appliance : Appliance)
    (available_draft : ℚ) : ComplianceResult :=
  match appliance.category.bind lookup_category with
  | none =>
    ⟨none, none, none, none, none, "No category specified or unknown category", none⟩
  | some category =>
    if category.pressure_min ≤ available_draft ∧ available_draft ≤ category.pressure_max then
      ⟨some true, some available_draft,
       some (category.pressure_min, category.pressure_max), some category.name,
       none, "✓ Within " ++ category.name ++ " limits", none⟩
    else if available_draft < category.pressure_min then
      ⟨some false, some available_draft,
       some (category.pressure_min, category.pressure_max), some category.name,
       some "too_negative", "✗ Outside " ++ category.name ++ " limits",
       some "Consider draft control device"⟩
    else
      ⟨some false, some available_draft,
       some (category.pressure_min, category.pressure_max), some category.name,
       some "too_positive", "✗ Outside " ++ category.name ++ " limits",
       some "Consider draft inducer or larger diameter"⟩

/-- The effective K-value `pressure_loss` charges for one supplied fitting
type: the resolved table's value, else the generic table's value, else 0
(the fitting is silently skipped). -/
def effective_k (tbl : List (String × ℚ)) (name : String) : ℚ :=
  match alist_lookup tbl name with
  | some k => k
  | none =>
    match alist_lookup fittings_generic name with
    | some k => k
    | none => 0

/-!  Theorems for the claims. -/

/-- Claim C4: for every `mbh` and `co2 ≠ 0`, `mass_flow_from_fuel_input`
with a recognized fuel computes the fuel-specific M-factor regression and
returns `massFlowPerHr = M * mbh`, `massFlowPerMin = massFlowPerHr / 60`;
at `mbh = 100`, `co2 = 9`, natural gas, `M` is within 0.0005 of 0.9518 and
the hourly mass flow within 0.005 of 95.18 lbm/hr. -/
theorem mass_flow_from_fuel_input_spec (mbh co2 : ℚ) (hco2 : co2 ≠ 0) :
    mass_flow_from_fuel_input mbh co2 "natural_gas" =
      .ok ⟨0.705 * (0.159 + 10.72 / co2) * mbh,
           0.705 * (0.159 + 10.72 / co2) * mbh / 60,
           0.705 * (0.159 + 10.72 / co2), "natural_gas", mbh, co2⟩ ∧
    mass_flow_from_fuel_input mbh co2 "lp_gas" =
      .ok ⟨0.704 * (0.144 + 12.61 / co2) * mbh,
           0.704 * (0.144 + 12.61 / co2) * mbh / 60,
           0.704 * (0.144 + 12.61 / co2), "lp_gas", mbh, co2⟩ ∧
    mass_flow_from_fuel_input mbh co2 "oil" =
      .ok ⟨0.72 * (0.12 + 14.4 / co2) * mbh,
           0.72 * (0.12 + 14.4 / co2) * mbh / 60,
           0.72 * (0.12 + 14.4 / co2), "oil", mbh, co2⟩ ∧
    ∃ r, mass_flow_from_fuel_input 100 9 "natural_gas" = .ok r ∧
      |r.M_factor - 0.9518| < 0.0005 ∧ |r.mass_flow_lbm_hr - 95.18| < 0.005 := by
  refine ⟨?_, ?_, ?_, ?_⟩
  · rw [mass_flow_from_fuel_input, if_pos (by decide)]
  · rw [mass_flow_from_fuel_input, if_neg (by decide), if_pos (by decide)]
  · rw [mass_flow_from_fuel_input, if_neg (by decide), if_neg (by decide),
      if_pos (by decide)]
  · exact ⟨_, by rw [mass_flow_from_fuel_input, if_pos (by decide)],
      by norm_num [abs_lt], by norm_num [abs_lt]⟩

/-- Witness for C4 at `mbh = 100`, `co2 = 9`. -/
theorem mass_flow_from_fuel_input_spec_witness :
    ∃ r, mass_flow_from_fuel_input 100 9 "natural_gas" = .ok r ∧
      |r.M_factor - 0.9518| < 0.0005 ∧ |r.mass_flow_lbm_hr - 95.18| < 0.005 :=
  (mass_flow_from_fuel_input_spec 100 9 (by norm_num)).2.2.2

/-- Claim C6 counterexample: the claim says the draft is positive for
every input with `flueTempF > outsideTempF`, but at `heightFt = 0` (with
flue 400 °F above outside 70 °F) the draft is 0, not positive. -/
theorem theoretical_draft_counterexample :
    (70 : ℚ) < 400 ∧ ¬ (0 < theoretical_draft 0 400 70 none) := by
  constructor
  · norm_num
  · rw [theoretical_draft]
    norm_num

/-- Claim C6 (amended): `theoretical_draft` equals exactly
0.2554 * B * H * (1/(outside+459.67) - 1/(flue+459.67)) with B defaulting
to 29.92; the result is positive whenever `heightFt > 0`, the barometric
pressure is positive, the outside temperature is above absolute zero and
`flueTempF > outsideTempF`; equal temperatures give 0 and `heightFt = 0`
gives 0. -/
theorem theoretical_draft_spec (height_ft tf tout : ℚ) (baro : Option ℚ) :
    theoretical_draft height_ft tf tout baro =
      0.2554 * (baro.getD standard_barometric_pressure) * height_ft *
        (1 / (tout + 459.67) - 1 / (tf + 459.67)) ∧
    (0 < height_ft → 0 < baro.getD standard_barometric_pressure →
      -459.67 < tout → tout < tf → 0 < theoretical_draft height_ft tf tout baro) ∧
    (tf = tout → theoretical_draft height_ft tf tout baro = 0) ∧
    theoretical_draft 0 tf tout baro = 0 := by
  refine ⟨rfl, ?_, ?_, ?_⟩
  · intro hh hb hto htf
    rw [theoretical_draft]
    have h1 : (0 : ℚ) < tout + 459.67 := by linarith
    have h2 : tout + 459.67 < tf + 459.67 := by linarith
    have h3 : 1 / (tf + 459.67) < 1 / (tout + 459.67) :=
      one_div_lt_one_div_of_lt h1 h2
    have h4 : (0 : ℚ) < 1 / (tout + 459.67) - 1 / (tf + 459.67) := by linarith
    have h5 : (0 : ℚ) < 0.2554 * baro.getD standard_barometric_pressure :=
      mul_pos (by norm_num) hb
    exact mul_pos (mul_pos h5 hh) h4
  · intro h
    rw [theoretical_draft, h]
    ring
  · rw [theoretical_draft]
    ring

/-- Witness for C6 (amended) at height 20 ft, flue 400 °F, outside 70 °F,
default barometric pressure. -/
theorem theoretical_draft_spec_witness :
    0 < theoretical_draft 20 400 70 none :=
  (theoretical_draft_spec 20 400 70 none).2.1 (by norm_num)
    (by norm_num [standard_barometric_pressure]) (by norm_num) (by norm_num)

/-- Claim C9: the CFM/velocity conversions are mutually inverse; `piVal`
stands for `math.pi`, any nonzero value cancels in the round trip. -/
theorem velocity_cfm_round_trip (piVal v d : ℚ) (hpi : piVal ≠ 0)
    (hv : 0 < v) (hd : 0 < d) :
    velocity_from_cfm piVal (cfm_from_velocity piVal v d) d = v := by
  rw [velocity_from_cfm, cfm_from_velocity]
  have hA : piVal * (d / 12) ^ 2 / 4 ≠ 0 := by
    apply div_ne_zero _ (by norm_num)
    exact mul_ne_zero hpi (pow_ne_zero 2 (by positivity))
  rw [mul_div_assoc, div_self hA, mul_one, mul_div_assoc]
  norm_num

/-- Witness for C9 at `piVal = 3`, `v = 5`, `d = 6`. -/
theorem velocity_cfm_round_trip_witness :
    velocity_from_cfm 3 (cfm_from_velocity 3 5 6) 6 = 5 :=
  velocity_cfm_round_trip 3 5 6 (by norm_num) (by norm_num) (by norm_num)

/-- Claim C8: `mass_flow_from_fuel_input` errors exactly when the lowercased
fuel string is outside the three recognized alias sets; recognized aliases
are mapped to their canonical fuel with that fuel's formula, and an
unrecognized fuel is never defaulted to any formula. -/
theorem fuel_alias_spec (mbh co2 : ℚ) (s : String) :
    ((∃ r, mass_flow_from_fuel_input mbh co2 s = .ok r) ↔
      (py_lower s ∈ ["natural_gas", "gas", "ng"] ∨
       py_lower s ∈ ["lp_gas", "lp", "propane", "lpg"] ∨
       py_lower s ∈ ["oil", "fuel_oil", "#2_oil"])) ∧
    (py_lower s ∈ ["natural_gas", "gas", "ng"] →
      ∃ r, mass_flow_from_fuel_input mbh co2 s = .ok r ∧
        r.fuel_type = "natural_gas" ∧ r.M_factor = 0.705 * (0.159 + 10.72 / co2)) ∧
    (py_lower s ∈ ["lp_gas", "lp", "propane", "lpg"] →
      ∃ r, mass_flow_from_fuel_input mbh co2 s = .ok r ∧
        r.fuel_type = "lp_gas" ∧ r.M_factor = 0.704 * (0.144 + 12.61 / co2)) ∧
    (py_lower s ∈ ["oil", "fuel_oil", "#2_oil"] →
      ∃ r, mass_flow_from_fuel_input mbh co2 s = .ok r ∧
        r.fuel_type = "oil" ∧ r.M_factor = 0.72 * (0.12 + 14.4 / co2)) ∧
    (py_lower s ∉ ["natural_gas", "gas", "ng"] →
     py_lower s ∉ ["lp_gas", "lp", "propane", "lpg"] →
     py_lower s ∉ ["oil", "fuel_oil", "#2_oil"] →
      ∃ msg, mass_flow_from_fuel_input mbh co2 s = .error msg) := by
  have hng : py_lower s ∈ ["natural_gas", "gas", "ng"] →
      ∃ r, mass_flow_from_fuel_input mbh co2 s = .ok r ∧
        r.fuel_type = "natural_gas" ∧ r.M_factor = 0.705 * (0.159 + 10.72 / co2) := by
    intro h1
    rw [mass_flow_from_fuel_input, if_pos h1]
    exact ⟨_, rfl, rfl, rfl⟩
  have hlp : py_lower s ∈ ["lp_gas", "lp", "propane", "lpg"] →
      ∃ r, mass_flow_from_fuel_input mbh co2 s = .ok r ∧
        r.fuel_type = "lp_gas" ∧ r.M_factor = 0.704 * (0.144 + 12.61 / co2) := by
    intro h2
    have h1 : py_lower s ∉ ["natural_gas", "gas", "ng"] := by
      simp only [List.mem_cons, List.not_mem_nil, or_false] at h2 ⊢
      rcases h2 with h | h | h | h <;> rw [h] <;> decide
    rw [mass_flow_from_fuel_input, if_neg h1, if_pos h2]
    exact ⟨_, rfl, rfl, rfl⟩
  have hoil : py_lower s ∈ ["oil", "fuel_oil", "#2_oil"] →
      ∃ r, mass_flow_from_fuel_input mbh co2 s = .ok r ∧
        r.fuel_type = "oil" ∧ r.M_factor = 0.72 * (0.12 + 14.4 / co2) := by
    intro h3
    have h1 : py_lower s ∉ ["natural_gas", "gas", "ng"] := by
      simp only [List.mem_cons, List.not_mem_nil, or_false] at h3 ⊢
      rcases h3 with h | h | h <;> rw [h] <;> decide
    have h2 : py_lower s ∉ ["lp_gas", "lp", "propane", "lpg"] := by
      simp only [List.mem_cons, List.not_mem_nil, or_false] at h3 ⊢
      rcases h3 with h | h | h <;> rw [h] <;> decide
    rw [mass_flow_from_fuel_input, if_neg h1, if_neg h2, if_pos h3]
    exact ⟨_, rfl, rfl, rfl⟩
  have herr : py_lower s ∉ ["natural_gas", "gas", "ng"] →
      py_lower s ∉ ["lp_gas", "lp", "propane", "lpg"] →
      py_lower s ∉ ["oil", "fuel_oil", "#2_oil"] →
      ∃ msg, mass_flow_from_fuel_input mbh co2 s = .error msg := by
    intro h1 h2 h3
    rw [mass_flow_from_fuel_input, if_neg h1, if_neg h2, if_neg h3]
    exact ⟨_, rfl⟩
  refine ⟨⟨?_, ?_⟩, hng, hlp, hoil, herr⟩
  · rintro ⟨r, hr⟩
    by_contra hno
    push_neg at hno
    obtain ⟨msg, hmsg⟩ := herr hno.1 hno.2.1 hno.2.2
    rw [hmsg] at hr
    exact Except.noConfusion hr
  · rintro (h | h | h)
    · obtain ⟨r, hr, -, -⟩ := hng h
      exact ⟨r, hr⟩
    · obtain ⟨r, hr, -, -⟩ := hlp h
      exact ⟨r, hr⟩
    · obtain ⟨r, hr, -, -⟩ := hoil h
      exact ⟨r, hr⟩

/-- Witness for C8 at the mixed-case alias `"Propane"` and at the
unrecognized fuel `"wood"`. -/
theorem fuel_alias_spec_witness :
    (∃ r, mass_flow_from_fuel_input 100 9 "Propane" = .ok r ∧
      r.fuel_type = "lp_gas" ∧ r.M_factor = 0.704 * (0.144 + 12.61 / 9)) ∧
    (∃ msg, mass_flow_from_fuel_input 100 9 "wood" = .error msg) :=
  ⟨(fuel_alias_spec 100 9 "Propane").2.2.1 (by decide),
   (fuel_alias_spec 100 9 "wood").2.2.2.2 (by decide) (by decide) (by decide)⟩

/-- Every category the table can return has a well-ordered pressure range. -/
theorem lookup_category_min_le_max (key : String) (info : CategoryInfo)
    (h : lookup_category key = some info) :
    info.pressure_min ≤ info.pressure_max := by
  rw [lookup_category] at h
  cases hf : appliance_categories.find? (fun p => p.1 == key) with
  | none => rw [hf] at h; exact Option.noConfusion h
  | some p =>
    rw [hf] at h
    have hmem : p ∈ appliance_categories := List.mem_of_find?_eq_some hf
    have hinfo : info = p.2 := by
      simpa using h.symm
    rw [hinfo]
    rw [appliance_categories] at hmem
    simp only [List.mem_cons, List.not_mem_nil, or_false] at hmem
    rcases hmem with h' | h' | h' | h' <;> rw [h'] <;> norm_num

/-- `fitting_step` adds exactly `effective_k` times the quantity. -/
theorem fitting_step_fst (tbl : List (String × ℚ)) (acc : ℚ × List FittingEntry)
    (p : String × ℚ) :
    (fitting_step tbl acc p).1 = acc.1 + effective_k tbl p.1 * p.2 := by
  rw [fitting_step, effective_k]
  cases alist_lookup tbl p.1 with
  | some k => rfl
  | none =>
    cases alist_lookup fittings_generic p.1 with
    | some k => rfl
    | none => simp

/-- The fitting fold sums `effective_k * quantity` over the supplied list. -/
theorem fold_sum_k (tbl : List (String × ℚ)) (fits : List (String × ℚ))
    (a : ℚ) (bl : List FittingEntry) :
    (fits.foldl (fitting_step tbl) (a, bl)).1 =
      a + (fits.map (fun p => effective_k tbl p.1 * p.2)).sum := by
  induction fits generalizing a bl with
  | nil => simp
  | cons p rest ih =>
    rw [List.foldl_cons, List.map_cons, List.sum_cons]
    calc (rest.foldl (fitting_step tbl) (fitting_step tbl (a, bl) p)).1
        = (rest.foldl (fitting_step tbl)
            ((fitting_step tbl (a, bl) p).1, (fitting_step tbl (a, bl) p).2)).1 := rfl
      _ = (fitting_step tbl (a, bl) p).1 +
            (rest.map (fun q => effective_k tbl q.1 * q.2)).sum := ih _ _
      _ = a + (effective_k tbl p.1 * p.2 +
            (rest.map (fun q => effective_k tbl q.1 * q.2)).sum) := by
          rw [fitting_step_fst]; ring

/-- `sum_k` of `pressure_loss` in closed form. -/
theorem pressure_loss_sum_k (len dia v t ak apl : ℚ)
    (fits : List (String × ℚ)) (vt : Option String) :
    (pressure_loss len dia v t fits vt ak apl).sum_k =
      (fits.map (fun p =>
        effective_k ((resolve_vent_profile vt).getD fittings_generic) p.1 * p.2)).sum +
        (if 0 < ak then ak else 0) := by
  rw [pressure_loss.eq_def]
  by_cases h : 0 < ak <;>
    simp only [h, if_true, if_false, reduceIte] <;>
    rw [fold_sum_k] <;> simp

/-- With no resolvable vent profile, `pressure_loss` uses the generic base
friction factor. -/
theorem pressure_loss_base_none (len dia v t ak apl : ℚ)
    (fits : List (String × ℚ)) (vt : Option String)
    (h : resolve_vent_profile vt = none) :
    (pressure_loss len dia v t fits vt ak apl).base_friction_factor =
      base_friction_factor := by
  rw [pressure_loss.eq_def]
  simp only [h]

/-- An unknown vent type name resolves to no profile. -/
theorem resolve_vent_profile_unknown (s : String)
    (h : s ∉ ["UL441 Type B Vent", "UL1738 Special Gas Vent", "UL103 Pressure Chimney"]) :
    resolve_vent_profile (some s) = none := by
  simp only [List.mem_cons, List.not_mem_nil, or_false, not_or] at h
  obtain ⟨h1, h2, h3⟩ := h
  show (fitting_coefficients_by_vent_type.find? (fun p => p.1 == s)).map _ = none
  rw [fitting_coefficients_by_vent_type]
  rw [List.find?_cons_of_neg, List.find?_cons_of_neg, List.find?_cons_of_neg]
  · rfl
  · simp only [beq_iff_eq]
    exact fun hh => h3 hh.symm
  · simp only [beq_iff_eq]
    exact fun hh => h2 hh.symm
  · simp only [beq_iff_eq]
    exact fun hh => h1 hh.symm

/-- Claim C5: `pressure_loss` never fails on unknown names: an absent or
unknown vent type resolves to the generic profile (base friction 0.3);
`sum_k` charges each supplied fitting its resolved-table K, falling back
to the generic K and silently contributing 0 when present in neither
table; `additional_k` is added exactly when positive. -/
theorem pressure_loss_generic_fallback (len dia v t ak apl : ℚ)
    (fits : List (String × ℚ)) (vt : Option String) :
    ((vt = none ∨ ∀ s, vt = some s →
        s ∉ ["UL441 Type B Vent", "UL1738 Special Gas Vent", "UL103 Pressure Chimney"]) →
      resolve_vent_profile vt = none ∧
      (pressure_loss len dia v t fits vt ak apl).base_friction_factor =
        base_friction_factor) ∧
    ((pressure_loss len dia v t fits vt ak apl).sum_k =
      (fits.map (fun p =>
        effective_k ((resolve_vent_profile vt).getD fittings_generic) p.1 * p.2)).sum +
        (if 0 < ak then ak else 0)) ∧
    (∀ tbl name, alist_lookup tbl name = none →
      effective_k tbl name = (alist_lookup fittings_generic name).getD 0) ∧
    (∀ tbl name, alist_lookup tbl name = none →
      alist_lookup fittings_generic name = none → effective_k tbl name = 0) := by
  refine ⟨?_, pressure_loss_sum_k len dia v t ak apl fits vt, ?_, ?_⟩
  · intro h
    have hr : resolve_vent_profile vt = none := by
      cases vvt : vt with
      | none => rfl
      | some s =>
        rcases h with h | h
        · exact absurd (vvt ▸ h) (by simp)
        · exact resolve_vent_profile_unknown s (h s vvt)
    exact ⟨hr, pressure_loss_base_none len dia v t ak apl fits vt hr⟩
  · intro tbl name hn
    rw [effective_k, hn]
    cases hg : alist_lookup fittings_generic name <;> simp
  · intro tbl name hn hg
    rw [effective_k, hn, hg]

/-- Witness for C5 at an unknown vent type, a generic-table fitting and an
unknown fitting with `additional_k = 0`. -/
theorem pressure_loss_generic_fallback_witness :
    resolve_vent_profile (some "Custom Vent") = none ∧
    (pressure_loss 25 6 100 400 [("90_elbow", 2), ("unknown_thing", 5)]
      (some "Custom Vent") 0 0).base_friction_factor = base_friction_factor :=
  (pressure_loss_generic_fallback 25 6 100 400 0 0
      [("90_elbow", 2), ("unknown_thing", 5)] (some "Custom Vent")).1
    (Or.inr fun s hs => by cases hs; decide)

/-- A filtered list's head satisfies the predicate, belongs to the original
list, and minimizes any key the list is sorted by. -/
theorem filter_head_min {A : Type} (p : A → Bool) (f : A → ℚ) (l : List A)
    (hs : l.Pairwise (fun a b => f a ≤ f b)) (sel : A) (t : List A)
    (h : l.filter p = sel :: t) :
    sel ∈ l ∧ p sel = true ∧ ∀ x ∈ l, p x = true → f sel ≤ f x := by
  induction l generalizing t with
  | nil => simp at h
  | cons a rest ih =>
    rw [List.filter_cons] at h
    by_cases hpa : p a = true
    · rw [if_pos hpa] at h
      obtain ⟨h1, h2⟩ := List.cons.inj h
      subst h1
      refine ⟨List.mem_cons_self a rest, hpa, ?_⟩
      intro x hx hpx
      rcases List.mem_cons.mp hx with h' | hx'
      · rw [h']
      · exact (List.pairwise_cons.mp hs).1 x hx'
    · rw [if_neg hpa] at h
      obtain ⟨hmem, hp, hmin⟩ := ih (List.pairwise_cons.mp hs).2 t h
      refine ⟨List.mem_cons_of_mem a hmem, hp, ?_⟩
      intro x hx hpx
      rcases List.mem_cons.mp hx with h' | hx'
      · exact absurd (h' ▸ hpx) hpa
      · exact hmin x hx' hpx

/-- An empty filter result means no element satisfies the predicate. -/
theorem filter_nil_no_sat {A : Type} (p : A → Bool) (l : List A)
    (h : l.filter p = []) : ∀ x ∈ l, ¬ p x = true := by
  intro x hx hpx
  have hmem : x ∈ l.filter p := List.mem_filter.mpr ⟨hx, hpx⟩
  rw [h] at hmem
  exact absurd hmem (List.not_mem_nil x)

/-- `select_diameter` either selects the head of the filtered table or
returns the sentinel, always attaching the full evaluated table. -/
theorem select_diameter_cases (piVal cfm height_ft tf tout : ℚ)
    (system_config : SystemConfig) (minD : ℚ) (baro : Option ℚ) :
    (∃ sel t,
      (standard_diameters.map (diameter_option piVal cfm tf
          (theoretical_draft height_ft tf tout baro) system_config minD)).filter
        (fun r => r.meets_requirement) = sel :: t ∧
      select_diameter piVal cfm height_ft tf tout system_config minD baro =
        ⟨some sel, none,
         standard_diameters.map (diameter_option piVal cfm tf
           (theoretical_draft height_ft tf tout baro) system_config minD)⟩) ∨
    ((standard_diameters.map (diameter_option piVal cfm tf
          (theoretical_draft height_ft tf tout baro) system_config minD)).filter
        (fun r => r.meets_requirement) = [] ∧
      select_diameter piVal cfm height_ft tf tout system_config minD baro =
        ⟨none, some "No standard diameter meets the minimum draft requirement",
         standard_diameters.map (diameter_option piVal cfm tf
           (theoretical_draft height_ft tf tout baro) system_config minD)⟩) := by
  rw [select_diameter.eq_def]
  dsimp only
  split
  case _ sel t heq => exact Or.inl ⟨sel, t, heq, rfl⟩
  case _ heq => exact Or.inr ⟨heq, rfl⟩



/-- Claim C3: `select_diameter` evaluates all 15 standard diameters in
ascending order and returns the smallest whose available draft meets the
requirement, attaching the full option table; when none qualifies it
returns the structured sentinel (no selected diameter, error message,
full table) instead of raising. -/
theorem select_diameter_spec (piVal cfm height_ft tf tout : ℚ)
    (system_config : SystemConfig) (minD : ℚ) (baro : Option ℚ) :
    ((select_diameter piVal cfm height_ft tf tout system_config minD baro).all_options.map (fun o => o.diameter_inches) = standard_diameters) ∧
    ((select_diameter piVal cfm height_ft tf tout system_config minD baro).all_options.length = 15) ∧
    standard_diameters.Pairwise (fun a b => a < b) ∧
    (∀ o ∈ (select_diameter piVal cfm height_ft tf tout system_config minD baro).all_options,
      o.meets_requirement = decide (minD ≤ o.available_draft_inwc)) ∧
    (∀ sel, (select_diameter piVal cfm height_ft tf tout system_config minD baro).selected = some sel →
      sel ∈ (select_diameter piVal cfm height_ft tf tout system_config minD baro).all_options ∧
      minD ≤ sel.available_draft_inwc ∧
      (∀ o ∈ (select_diameter piVal cfm height_ft tf tout system_config minD baro).all_options,
        minD ≤ o.available_draft_inwc → sel.diameter_inches ≤ o.diameter_inches) ∧
      (select_diameter piVal cfm height_ft tf tout system_config minD baro).error = none) ∧
    ((select_diameter piVal cfm height_ft tf tout system_config minD baro).selected = none →
      (select_diameter piVal cfm height_ft tf tout system_config minD baro).error = some "No standard diameter meets the minimum draft requirement" ∧
      ∀ o ∈ (select_diameter piVal cfm height_ft tf tout system_config minD baro).all_options, ¬ minD ≤ o.available_draft_inwc) := by
  have hmeets : ∀ o ∈ standard_diameters.map (diameter_option piVal cfm tf
      (theoretical_draft height_ft tf tout baro) system_config minD),
      o.meets_requirement = decide (minD ≤ o.available_draft_inwc) := by
    intro o ho
    obtain ⟨d, hd, rfl⟩ := List.mem_map.mp ho
    rfl
  have hmapd : (standard_diameters.map (diameter_option piVal cfm tf
      (theoretical_draft height_ft tf tout baro) system_config minD)).map
        (fun o => o.diameter_inches) = standard_diameters := by
    rw [List.map_map]
    exact List.map_id standard_diameters
  have hsorted : (standard_diameters.map (diameter_option piVal cfm tf
      (theoretical_draft height_ft tf tout baro) system_config minD)).Pairwise
        (fun a b => a.diameter_inches ≤ b.diameter_inches) := by
    apply List.pairwise_map.mpr
    show standard_diameters.Pairwise (fun a b => a ≤ b)
    norm_num [standard_diameters]
  have hlt : standard_diameters.Pairwise (fun a b => a < b) := by
    norm_num [standard_diameters]
  rcases select_diameter_cases piVal cfm height_ft tf tout system_config minD baro with
    ⟨sel, t, hfil, hres⟩ | ⟨hfil, hres⟩
  · rw [hres]
    refine ⟨hmapd, by rw [List.length_map]; rfl, hlt, hmeets, ?_, ?_⟩
    · intro sel' hsel'
      obtain rfl : sel = sel' := Option.some.inj hsel'
      obtain ⟨hmem, hp, hmin⟩ := filter_head_min (fun r => r.meets_requirement)
        (fun o => o.diameter_inches) _ hsorted sel t hfil
      refine ⟨hmem, ?_, ?_, rfl⟩
      · have := hmeets sel hmem
        rw [this] at hp
        exact of_decide_eq_true hp
      · intro o ho hle
        apply hmin o ho
        rw [hmeets o ho]
        exact decide_eq_true hle
    · intro hnone
      exact Option.noConfusion hnone
  · rw [hres]
    refine ⟨hmapd, by rw [List.length_map]; rfl, hlt, hmeets, ?_, ?_⟩
    · intro sel' hsel'
      exact Option.noConfusion hsel'
    · intro _
      refine ⟨rfl, ?_⟩
      intro o ho hle
      apply filter_nil_no_sat _ _ hfil o ho
      rw [hmeets o ho]
      exact decide_eq_true hle

/-- Witness for C3: with zero flow, zero height and requirement -1 in w.c.,
the smallest diameter (3 in) is selected and the full table is attached. -/
theorem select_diameter_spec_witness :
    (select_diameter 3 0 0 70 70 ⟨10, 0, []⟩ (-1) none).all_options.map
        (fun o => o.diameter_inches) = standard_diameters ∧
    ∃ sel, (select_diameter 3 0 0 70 70 ⟨10, 0, []⟩ (-1) none).selected = some sel ∧
      sel ∈ (select_diameter 3 0 0 70 70 ⟨10, 0, []⟩ (-1) none).all_options ∧
      (-1 : ℚ) ≤ sel.available_draft_inwc := by
  have spec := select_diameter_spec 3 0 0 70 70 ⟨10, 0, []⟩ (-1) none
  have h0 : (diameter_option 3 0 70 (theoretical_draft 0 70 70 none)
      ⟨10, 0, []⟩ (-1) 3).available_draft_inwc = 0 := by
    simp only [diameter_option, total_pressure_loss, available_draft, velocity_from_cfm]
    rw [pressure_loss.eq_def]
    norm_num [theoretical_draft]
  have hmeets3 : (diameter_option 3 0 70 (theoretical_draft 0 70 70 none)
      ⟨10, 0, []⟩ (-1) 3).meets_requirement = true := by
    have hd : (diameter_option 3 0 70 (theoretical_draft 0 70 70 none)
        ⟨10, 0, []⟩ (-1) 3).meets_requirement =
        decide ((-1 : ℚ) ≤ (diameter_option 3 0 70 (theoretical_draft 0 70 70 none)
          ⟨10, 0, []⟩ (-1) 3).available_draft_inwc) := rfl
    rw [hd, h0]
    rw [decide_eq_true_eq]
    norm_num
  rcases select_diameter_cases 3 0 0 70 70 ⟨10, 0, []⟩ (-1) none with
    ⟨sel, t, hfil, hres⟩ | ⟨hfil, hres⟩
  · have hsel : (select_diameter 3 0 0 70 70 ⟨10, 0, []⟩ (-1) none).selected = some sel := by
      rw [hres]
    obtain ⟨hmem, hle, -, -⟩ := spec.2.2.2.2.1 sel hsel
    exact ⟨spec.1, sel, hsel, hmem, hle⟩
  · exfalso
    have hm : diameter_option 3 0 70 (theoretical_draft 0 70 70 none) ⟨10, 0, []⟩ (-1) 3 ∈
        (standard_diameters.map (diameter_option 3 0 70
          (theoretical_draft 0 70 70 none) ⟨10, 0, []⟩ (-1))).filter
          (fun r => r.meets_requirement) :=
      List.mem_filter.mpr
        ⟨List.mem_map.mpr ⟨3, by norm_num [standard_diameters], rfl⟩, hmeets3⟩
    rw [hfil] at hm
    exact List.not_mem_nil _ hm


/-- Claim C7: `check_appliance_pressure_limits` reports compliant exactly
when the draft lies in the category's fixed pressure range, reports the
violated bound with the matching recommendation otherwise, and returns the
indeterminate sentinel (`compliant = None`) for a missing or unknown
category. -/
theorem check_pressure_limits_spec (app : Appliance) (d : ℚ) :
    (∀ key info, app.category = some key → lookup_category key = some info →
      ((check_appliance_pressure_limits app d).compliant = some true ↔
        info.pressure_min ≤ d ∧ d ≤ info.pressure_max) ∧
      (d < info.pressure_min →
        (check_appliance_pressure_limits app d).compliant = some false ∧
        (check_appliance_pressure_limits app d).issue = some "too_negative" ∧
        (check_appliance_pressure_limits app d).recommendation =
          some "Consider draft control device") ∧
      (info.pressure_max < d →
        (check_appliance_pressure_limits app d).compliant = some false ∧
        (check_appliance_pressure_limits app d).issue = some "too_positive" ∧
        (check_appliance_pressure_limits app d).recommendation =
          some "Consider draft inducer or larger diameter")) ∧
    (app.category.bind lookup_category = none →
      (check_appliance_pressure_limits app d).compliant = none ∧
      (check_appliance_pressure_limits app d).message =
        "No category specified or unknown category") := by
  constructor
  · intro key info hk hi
    have hb : app.category.bind lookup_category = some info := by
      rw [hk]
      simpa using hi
    rw [check_appliance_pressure_limits, hb]
    dsimp only
    by_cases hin : info.pressure_min ≤ d ∧ d ≤ info.pressure_max
    · rw [if_pos hin]
      refine ⟨by simp [hin], fun hlt => absurd hin.1 (not_le.mpr hlt),
        fun hgt => absurd hin.2 (not_le.mpr hgt)⟩
    · rw [if_neg hin]
      by_cases hlt : d < info.pressure_min
      · rw [if_pos hlt]
        have hgtFalse : ¬ info.pressure_max < d := by
          have := lookup_category_min_le_max key info hi
          intro hgt
          linarith
        exact ⟨by simp [hin], fun _ => ⟨rfl, rfl, rfl⟩,
          fun hgt => absurd hgt hgtFalse⟩
      · rw [if_neg hlt]
        exact ⟨by simp [hin], fun h => absurd h hlt, fun _ => ⟨rfl, rfl, rfl⟩⟩
  · intro hb
    rw [check_appliance_pressure_limits, hb]
    exact ⟨rfl, rfl⟩

/-- Witness for C7: a Category II appliance at -0.05 in w.c. is compliant,
and an unknown category yields the indeterminate sentinel. -/
theorem check_pressure_limits_spec_witness :
    (check_appliance_pressure_limits ⟨100, 8.5, 285, none, some "cat_ii"⟩ (-0.05)).compliant
      = some true ∧
    (check_appliance_pressure_limits ⟨100, 8.5, 285, none, some "custom"⟩ (-0.05)).compliant
      = none :=
  ⟨((check_pressure_limits_spec ⟨100, 8.5, 285, none, some "cat_ii"⟩ (-0.05)).1 "cat_ii"
      ⟨"Category II - Non-Condensing", 8.5, 285, -0.08, -0.03,
       "Non-condensing with non-positive vent pressure"⟩ rfl rfl).1.mpr
    (by norm_num),
   ((check_pressure_limits_spec ⟨100, 8.5, 285, none, some "custom"⟩ (-0.05)).2
    rfl).1⟩

/-- Fields of a successful `cfm_from_combustion_opt` run: the CFM is the
per-minute mass flow divided by the density at the given temperature. -/
theorem cfm_from_combustion_opt_fields (mbh co2 t : ℚ) (fuel : String)
    (comb : CombustionResult)
    (h : cfm_from_combustion_opt mbh co2 t fuel = some comb) :
    comb.cfm = comb.mass_flow_lbm_min / air_density t ∧ comb.temp_f = t := by
  rw [cfm_from_combustion_opt, cfm_from_combustion] at h
  cases hm : mass_flow_from_fuel_input mbh co2 fuel with
  | error msg =>
    rw [hm] at h
    exact Option.noConfusion h
  | ok m =>
    rw [hm] at h
    obtain rfl := (Option.some.inj h).symm
    exact ⟨rfl, rfl⟩

/-- Each row of `appliance_rows` carries its appliance temperature, the
Rankine conversion, and the CFM recomputed from its own mass flow. -/
theorem appliance_rows_spec :
    ∀ (apps : List Appliance) (i : ℕ) (rows : List ApplianceEntry),
      appliance_rows apps i = some rows →
      rows.length = apps.length ∧
      rows.map (fun e => e.temp_f) = apps.map (fun a => a.temp_f) ∧
      ∀ e ∈ rows, e.temp_r = e.temp_f + 459.67 ∧
        e.cfm = e.mass_flow_lbm_min / air_density e.temp_f := by
  intro apps
  induction apps with
  | nil =>
    intro i rows h
    rw [appliance_rows] at h
    obtain rfl : rows = [] := (Option.some.inj h).symm
    exact ⟨rfl, rfl, fun e he => absurd he (List.not_mem_nil e)⟩
  | cons app rest ih =>
    intro i rows h
    rw [appliance_rows] at h
    cases hc : cfm_from_combustion_opt app.mbh app.co2_percent app.temp_f
        (app.fuel_type.getD "natural_gas") with
    | none =>
      rw [hc] at h
      exact Option.noConfusion h
    | some comb =>
      rw [hc] at h
      cases hrest : appliance_rows rest (i + 1) with
      | none =>
        rw [hrest] at h
        exact Option.noConfusion h
      | some others =>
        rw [hrest] at h
        obtain rfl : rows = ⟨i, app.mbh, comb.cfm, comb.mass_flow_lbm_min,
            app.temp_f, app.temp_f + 459.67, app.category.getD "custom"⟩ :: others :=
          (Option.some.inj h).symm
        obtain ⟨hlen, hmap, hfields⟩ := ih (i + 1) others hrest
        obtain ⟨hcfm, -⟩ := cfm_from_combustion_opt_fields app.mbh app.co2_percent
          app.temp_f (app.fuel_type.getD "natural_gas") comb hc
        refine ⟨by rw [List.length_cons, hlen, List.length_cons], ?_, ?_⟩
        · rw [List.map_cons, List.map_cons, hmap]
        · intro e he
          rcases List.mem_cons.mp he with h' | h'
          · rw [h']
            exact ⟨rfl, hcfm⟩
          · exact hfields e h'

/-- Summing `mass * temp_r` over rows with a shared Rankine temperature. -/
theorem sum_mass_temp_const (l : List ApplianceEntry) (c : ℚ)
    (h : ∀ e ∈ l, e.temp_r = c) :
    (l.map (fun e => e.mass_flow_lbm_min * e.temp_r)).sum =
      (l.map (fun e => e.mass_flow_lbm_min)).sum * c := by
  induction l with
  | nil => simp
  | cons e rest ih =>
    rw [List.map_cons, List.map_cons, List.sum_cons, List.sum_cons,
      ih (fun x hx => h x (List.mem_cons_of_mem _ hx)),
      h e (List.mem_cons_self _ _)]
    ring

/-- Summing CFMs over rows that share one evaluation temperature. -/
theorem sum_cfm_same_temp (l : List ApplianceEntry) (T : ℚ)
    (ht : ∀ e ∈ l, e.temp_f = T)
    (hc : ∀ e ∈ l, e.cfm = e.mass_flow_lbm_min / air_density e.temp_f) :
    (l.map (fun e => e.cfm)).sum =
      (l.map (fun e => e.mass_flow_lbm_min)).sum / air_density T := by
  induction l with
  | nil => simp
  | cons e rest ih =>
    rw [List.map_cons, List.map_cons, List.sum_cons, List.sum_cons,
      ih (fun x hx => ht x (List.mem_cons_of_mem _ hx))
        (fun x hx => hc x (List.mem_cons_of_mem _ hx)),
      hc e (List.mem_cons_self _ _), ht e (List.mem_cons_self _ _), add_div]

/-- Structure of any successful `calculate_combined_cfm` run. -/
theorem calculate_combined_cfm_some (apps : List Appliance) (res : CombinedResult)
    (h : calculate_combined_cfm apps = some res) :
    ∃ rows, appliance_rows apps 1 = some rows ∧
      res.appliance_results = rows ∧
      res.total_mass_flow_lbm_min = (rows.map (fun e => e.mass_flow_lbm_min)).sum ∧
      res.total_cfm = res.total_mass_flow_lbm_min / air_density res.weighted_avg_temp_f ∧
      ((0 < res.total_mass_flow_lbm_min →
        res.weighted_avg_temp_f =
          (rows.map (fun e => e.mass_flow_lbm_min * e.temp_r)).sum /
            res.total_mass_flow_lbm_min - 459.67) ∧
       (¬ 0 < res.total_mass_flow_lbm_min →
        ∀ a rest, apps = a :: rest → res.weighted_avg_temp_f = a.temp_f)) := by
  rw [calculate_combined_cfm] at h
  cases hrows : appliance_rows apps 1 with
  | none =>
    rw [hrows] at h
    exact Option.noConfusion h
  | some rows =>
    rw [hrows] at h
    dsimp only at h
    by_cases hpos : 0 < (rows.map (fun e => e.mass_flow_lbm_min)).sum
    · rw [if_pos hpos] at h
      obtain rfl := (Option.some.inj h).symm
      exact ⟨rows, rfl, rfl, rfl, rfl,
        ⟨fun _ => rfl, fun hneg => absurd hpos hneg⟩⟩
    · rw [if_neg hpos] at h
      cases apps with
      | nil => exact Option.noConfusion h
      | cons a rest =>
        obtain rfl := (Option.some.inj h).symm
        refine ⟨rows, rfl, rfl, rfl, rfl, ⟨fun hp => absurd hp hpos, ?_⟩⟩
        intro _ a' rest' heq
        obtain ⟨ha, -⟩ := List.cons.inj heq
        rw [← ha]

/-- Replicated appliances give replicated rows. -/
theorem appliance_rows_replicate (app : Appliance) (comb : CombustionResult)
    (hc : cfm_from_combustion_opt app.mbh app.co2_percent app.temp_f
      (app.fuel_type.getD "natural_gas") = some comb) :
    ∀ (n i : ℕ), ∃ rows, appliance_rows (List.replicate n app) i = some rows ∧
      rows.length = n ∧
      ∀ e ∈ rows, e.mass_flow_lbm_min = comb.mass_flow_lbm_min ∧
        e.cfm = comb.cfm ∧ e.temp_f = app.temp_f := by
  intro n
  induction n with
  | zero => exact fun i => ⟨[], by rw [List.replicate, appliance_rows], rfl,
      fun e he => absurd he (List.not_mem_nil e)⟩
  | succ m ih =>
    intro i
    obtain ⟨rows', hrows', hlen', hall'⟩ := ih (i + 1)
    have hstep : appliance_rows (List.replicate (m + 1) app) i =
        some (⟨i, app.mbh, comb.cfm, comb.mass_flow_lbm_min, app.temp_f,
          app.temp_f + 459.67, app.category.getD "custom"⟩ :: rows') := by
      rw [List.replicate, appliance_rows, hc, hrows']
      rfl
    refine ⟨_, hstep, by rw [List.length_cons, hlen'], ?_⟩
    intro e he
    rcases List.mem_cons.mp he with h' | h'
    · rw [h']
      exact ⟨rfl, rfl, rfl⟩
    · exact hall' e h'

/-- Sum of a constant list. -/
theorem sum_const_list (l : List ℚ) (c : ℚ) (h : ∀ x ∈ l, x = c) :
    l.sum = l.length * c := by
  induction l with
  | nil => simp
  | cons x rest ih =>
    rw [List.sum_cons, List.length_cons, ih (fun y hy => h y (List.mem_cons_of_mem _ hy)),
      h x (List.mem_cons_self _ _)]
    push_cast
    ring

/-- `calculate_combined_cfm` succeeds once the rows exist and the total
mass flow is positive. -/
theorem calculate_combined_cfm_isSome' (apps : List Appliance)
    (rows : List ApplianceEntry) (hrows : appliance_rows apps 1 = some rows)
    (hpos : 0 < (rows.map (fun e => e.mass_flow_lbm_min)).sum) :
    ∃ r, calculate_combined_cfm apps = some r := by
  rw [calculate_combined_cfm, hrows]
  dsimp only
  rw [if_pos hpos]
  exact ⟨_, rfl⟩

/-- Claim C2: `calculate_combined_cfm` mixes the streams mass-weighted in
Rankine and recomputes the total CFM from the total mass flow at the mixed
temperature (not as the sum of individual CFMs); at a shared flue
temperature the mixed temperature is exactly that temperature and the
total equals the sum of individual CFMs, so N identical appliances give
exactly N times the individual CFM; zero total mass flow falls back to the
first appliance's temperature. -/
theorem combined_cfm_mixing_spec (apps : List Appliance) (app : Appliance)
    (comb : CombustionResult) (n : ℕ) (T : ℚ) :
    (∀ res, calculate_combined_cfm apps = some res →
      res.total_cfm = res.total_mass_flow_lbm_min / air_density res.weighted_avg_temp_f ∧
      res.total_mass_flow_lbm_min =
        (res.appliance_results.map (fun e => e.mass_flow_lbm_min)).sum ∧
      (0 < res.total_mass_flow_lbm_min →
        res.weighted_avg_temp_f =
          (res.appliance_results.map (fun e => e.mass_flow_lbm_min * e.temp_r)).sum /
            res.total_mass_flow_lbm_min - 459.67)) ∧
    (∀ res, calculate_combined_cfm apps = some res → (∀ a ∈ apps, a.temp_f = T) →
      0 < res.total_mass_flow_lbm_min →
      res.weighted_avg_temp_f = T ∧
      res.total_cfm = (res.appliance_results.map (fun e => e.cfm)).sum) ∧
    (∀ res a rest, calculate_combined_cfm (a :: rest) = some res →
      ¬ 0 < res.total_mass_flow_lbm_min → res.weighted_avg_temp_f = a.temp_f) ∧
    (1 ≤ n →
      cfm_from_combustion_opt app.mbh app.co2_percent app.temp_f
        (app.fuel_type.getD "natural_gas") = some comb →
      0 < comb.mass_flow_lbm_min →
      ∃ r, calculate_combined_cfm (List.replicate n app) = some r ∧
        r.weighted_avg_temp_f = app.temp_f ∧
        r.total_cfm = (n : ℚ) * comb.cfm) := by
  have same_temp : ∀ (apps' : List Appliance) (res : CombinedResult) (T' : ℚ),
      calculate_combined_cfm apps' = some res → (∀ a ∈ apps', a.temp_f = T') →
      0 < res.total_mass_flow_lbm_min →
      res.weighted_avg_temp_f = T' ∧
      res.total_cfm = (res.appliance_results.map (fun e => e.cfm)).sum := by
    intro apps' res T' h hT hpos
    obtain ⟨rows, hrows, hres_rows, hmass, hcfm, hmix, -⟩ :=
      calculate_combined_cfm_some apps' res h
    obtain ⟨-, hmapT, hfields⟩ := appliance_rows_spec apps' 1 rows hrows
    have htemps : ∀ e ∈ rows, e.temp_f = T' := by
      intro e he
      have : e.temp_f ∈ rows.map (fun e => e.temp_f) := List.mem_map_of_mem _ he
      rw [hmapT] at this
      obtain ⟨a, ha, haa⟩ := List.mem_map.mp this
      rw [← haa, hT a ha]
    have hranks : ∀ e ∈ rows, e.temp_r = T' + 459.67 := by
      intro e he
      rw [(hfields e he).1, htemps e he]
    have hw : res.weighted_avg_temp_f = T' := by
      have hne : res.total_mass_flow_lbm_min ≠ 0 := ne_of_gt hpos
      rw [hmix hpos, sum_mass_temp_const rows (T' + 459.67) hranks, ← hmass]
      field_simp
    refine ⟨hw, ?_⟩
    rw [hcfm, hw, hres_rows,
      sum_cfm_same_temp rows T' htemps (fun e he => (hfields e he).2), hmass]
  refine ⟨?_, ?_, ?_, ?_⟩
  · intro res h
    obtain ⟨rows, -, hres_rows, hmass, hcfm, hmix, -⟩ :=
      calculate_combined_cfm_some apps res h
    rw [hres_rows]
    exact ⟨hcfm, hmass, hmix⟩
  · intro res h hT hpos
    exact same_temp apps res T h hT hpos
  · intro res a rest h hneg
    obtain ⟨rows, -, -, -, -, -, hfall⟩ :=
      calculate_combined_cfm_some (a :: rest) res h
    exact hfall hneg a rest rfl
  · intro hn hc hpos
    obtain ⟨rows, hrows, hlen, hall⟩ := appliance_rows_replicate app comb hc n 1
    have hs : (rows.map (fun e => e.mass_flow_lbm_min)).sum =
        (n : ℚ) * comb.mass_flow_lbm_min := by
      rw [sum_const_list (rows.map (fun e => e.mass_flow_lbm_min))
          comb.mass_flow_lbm_min
          (by intro x hx
              obtain ⟨e, he, hex⟩ := List.mem_map.mp hx
              rw [← hex, (hall e he).1]),
        List.length_map, hlen]
    have hposn : (0 : ℚ) < (n : ℚ) := by
      have : (1 : ℚ) ≤ (n : ℚ) := by exact_mod_cast hn
      linarith
    have hpos_sum : 0 < (rows.map (fun e => e.mass_flow_lbm_min)).sum := by
      rw [hs]
      exact mul_pos hposn hpos
    have hne : List.replicate n app ≠ [] := by
      cases n with
      | zero => exact absurd hn (by norm_num)
      | succ m => simp [List.replicate]
    obtain ⟨r, hr⟩ := calculate_combined_cfm_isSome' (List.replicate n app) rows hrows hpos_sum
    obtain ⟨rows', hrows', hres_rows, hmass, hcfm, -, -⟩ :=
      calculate_combined_cfm_some (List.replicate n app) r hr
    obtain rfl : rows = rows' := by rw [hrows] at hrows'; exact Option.some.inj hrows'
    have hT : ∀ a ∈ List.replicate n app, a.temp_f = app.temp_f := by
      intro a ha
      rw [List.eq_of_mem_replicate ha]
    have hrmass : 0 < r.total_mass_flow_lbm_min := by
      rw [hmass]
      exact hpos_sum
    obtain ⟨hw, -⟩ := same_temp (List.replicate n app) r app.temp_f hr hT hrmass
    refine ⟨r, hr, hw, ?_⟩
    obtain ⟨hcc, -⟩ := cfm_from_combustion_opt_fields app.mbh app.co2_percent
      app.temp_f (app.fuel_type.getD "natural_gas") comb hc
    rw [hcfm, hw, hmass, hs, hcc, mul_div_assoc]

/-- Witness for C2: three identical 100-MBH natural-gas appliances at
300 °F mix to exactly 300 °F with total CFM exactly three times the
individual CFM. -/
theorem combined_cfm_mixing_spec_witness :
    ∃ comb r,
      cfm_from_combustion_opt 100 9 300 "natural_gas" = some comb ∧
      calculate_combined_cfm (List.replicate 3 ⟨100, 9, 300, none, none⟩) = some r ∧
      r.weighted_avg_temp_f = 300 ∧
      r.total_cfm = 3 * comb.cfm := by
  have hc : cfm_from_combustion_opt 100 9 300 "natural_gas" =
      some ⟨0.705 * (0.159 + (10.72 / 9)) * 100 / 60 / air_density 300,
        0.705 * (0.159 + (10.72 / 9)) * 100,
        0.705 * (0.159 + (10.72 / 9)) * 100 / 60,
        0.705 * (0.159 + (10.72 / 9)), 100, 9, 300, "natural_gas",
        air_density 300⟩ := by
    rw [cfm_from_combustion_opt, cfm_from_combustion, mass_flow_from_fuel_input,
      if_pos (by decide)]
    rfl
  have hpos : 0 < (⟨0.705 * (0.159 + (10.72 / 9)) * 100 / 60 / air_density 300,
        0.705 * (0.159 + (10.72 / 9)) * 100,
        0.705 * (0.159 + (10.72 / 9)) * 100 / 60,
        0.705 * (0.159 + (10.72 / 9)), 100, 9, 300, "natural_gas",
        air_density 300⟩ : CombustionResult).mass_flow_lbm_min := by
    norm_num
  obtain ⟨r, hr, hw, ht⟩ :=
    (combined_cfm_mixing_spec (List.replicate 3 ⟨100, 9, 300, none, none⟩)
      ⟨100, 9, 300, none, none⟩ ⟨0.705 * (0.159 + (10.72 / 9)) * 100 / 60 / air_density 300,
        0.705 * (0.159 + (10.72 / 9)) * 100,
        0.705 * (0.159 + (10.72 / 9)) * 100 / 60,
        0.705 * (0.159 + (10.72 / 9)), 100, 9, 300, "natural_gas",
        air_density 300⟩ 3 300).2.2.2
      (by norm_num) hc hpos
  refine ⟨⟨0.705 * (0.159 + (10.72 / 9)) * 100 / 60 / air_density 300,
        0.705 * (0.159 + (10.72 / 9)) * 100,
        0.705 * (0.159 + (10.72 / 9)) * 100 / 60,
        0.705 * (0.159 + (10.72 / 9)), 100, 9, 300, "natural_gas",
        air_density 300⟩, r, hc, hr, hw, ?_⟩
  rw [ht]
  norm_num


/-- `min_by_total` returns an element of the candidate list. -/
theorem min_by_total_mem (e : WorstCaseEntry) (l : List WorstCaseEntry) :
    min_by_total e l ∈ e :: l := by
  induction l generalizing e with
  | nil => simp [min_by_total]
  | cons x xs ih =>
    have key : min_by_total e (x :: xs) =
        min_by_total (if x.total_available_draft < e.total_available_draft then x else e) xs :=
      rfl
    rw [key]
    by_cases h : x.total_available_draft < e.total_available_draft
    · rw [if_pos h]
      rcases List.mem_cons.mp (ih x) with h' | h'
      · rw [h']
        exact List.mem_cons_of_mem _ (List.mem_cons_self _ _)
      · exact List.mem_cons_of_mem _ (List.mem_cons_of_mem _ h')
    · rw [if_neg h]
      rcases List.mem_cons.mp (ih e) with h' | h'
      · rw [h']
        exact List.mem_cons_self _ _
      · exact List.mem_cons_of_mem _ (List.mem_cons_of_mem _ h')

/-- `min_by_total` minimizes `total_available_draft` over the candidates. -/
theorem min_by_total_le (e : WorstCaseEntry) (l : List WorstCaseEntry) :
    ∀ x ∈ e :: l,
      (min_by_total e l).total_available_draft ≤ x.total_available_draft := by
  induction l generalizing e with
  | nil =>
    intro x hx
    rcases List.mem_cons.mp hx with h | h
    · rw [h]
      exact le_refl _
    · exact absurd h (List.not_mem_nil x)
  | cons y ys ih =>
    intro x hx
    have key : min_by_total e (y :: ys) =
        min_by_total (if y.total_available_draft < e.total_available_draft then y else e) ys :=
      rfl
    rw [key]
    have hst_e : (if y.total_available_draft < e.total_available_draft then y
        else e).total_available_draft ≤ e.total_available_draft := by
      by_cases h : y.total_available_draft < e.total_available_draft
      · rw [if_pos h]
        exact le_of_lt h
      · rw [if_neg h]
    have hst_y : (if y.total_available_draft < e.total_available_draft then y
        else e).total_available_draft ≤ y.total_available_draft := by
      by_cases h : y.total_available_draft < e.total_available_draft
      · rw [if_pos h]
      · rw [if_neg h]
        exact le_of_not_lt h
    have hhead := ih (if y.total_available_draft < e.total_available_draft then y else e)
      _ (List.mem_cons_self _ _)
    rcases List.mem_cons.mp hx with h | h
    · rw [h]
      exact le_trans hhead hst_e
    · rcases List.mem_cons.mp h with h' | h'
      · rw [h']
        exact le_trans hhead hst_y
      · exact ih _ x (List.mem_cons_of_mem _ h')

/-- Each row built by `worst_case_rows` records its appliance, its own
connector analysis, the shared manifold-`all` analysis, and their sum. -/
theorem worst_case_rows_spec (piVal : ℚ) (all_apps : List Appliance)
    (mc : ManifoldConfig) (tout : ℚ) :
    ∀ (apps : List Appliance) (ccs : List ConnectorConfig) (i : ℕ)
      (rows : List WorstCaseEntry),
      worst_case_rows piVal all_apps mc tout apps ccs i = some rows →
      rows.map (fun e => e.appliance) = apps ∧
      ∀ e ∈ rows,
        e.total_available_draft = e.connector_draft + e.manifold_draft ∧
        e.connector_draft = e.connector_result.connector.available_draft_inwc ∧
        e.manifold_draft = e.manifold_result.common_vent.available_draft_inwc ∧
        analyze_manifold_system piVal all_apps mc tout "all" = some e.manifold_result ∧
        ∃ cc ∈ ccs, analyze_connector piVal e.appliance cc tout = some e.connector_result := by
  intro apps
  induction apps with
  | nil =>
    intro ccs i rows h
    rw [worst_case_rows] at h
    obtain rfl : rows = [] := (Option.some.inj h).symm
    exact ⟨rfl, fun e he => absurd he (List.not_mem_nil e)⟩
  | cons app rest_apps ih =>
    intro ccs i rows h
    cases ccs with
    | nil =>
      rw [worst_case_rows] at h
      exact Option.noConfusion h
    | cons cc ccs' =>
      rw [worst_case_rows] at h
      cases h1 : analyze_connector piVal app cc tout with
      | none =>
        rw [h1] at h
        exact Option.noConfusion h
      | some conn =>
        rw [h1] at h
        cases h2 : analyze_manifold_system piVal all_apps mc tout "all" with
        | none =>
          rw [h2] at h
          exact Option.noConfusion h
        | some mani =>
          rw [h2] at h
          cases h3 : worst_case_rows piVal all_apps mc tout rest_apps ccs' (i + 1) with
          | none =>
            rw [h3] at h
            exact Option.noConfusion h
          | some rest_rows =>
            rw [h3] at h
            obtain rfl : rows = ⟨i, app,
                conn.connector.available_draft_inwc,
                mani.common_vent.available_draft_inwc,
                conn.connector.available_draft_inwc +
                  mani.common_vent.available_draft_inwc,
                conn, mani⟩ :: rest_rows := (Option.some.inj h).symm
            obtain ⟨hmap, hrest⟩ := ih ccs' (i + 1) rest_rows h3
            constructor
            · rw [List.map_cons, hmap]
            · intro e he
              rcases List.mem_cons.mp he with h' | h'
              · rw [h']
                exact ⟨rfl, rfl, rfl, rfl, cc, List.mem_cons_self _ _, h1⟩
              · obtain ⟨ht, hc, hm, hmani, cc', hcc', hconn⟩ := hrest e h'
                exact ⟨ht, hc, hm, h2.symm.trans hmani, cc',
                  List.mem_cons_of_mem _ hcc', hconn⟩


/-- Claim C1: `analyze_worst_case_appliance` builds one entry per appliance
whose total available draft is its own connector analysis plus the shared
manifold-`all` analysis, and returns as worst case an entry of minimal
total available draft together with the full per-appliance breakdown. -/
theorem worst_case_spec (piVal : ℚ) (apps : List Appliance)
    (ccs : List ConnectorConfig) (mc : ManifoldConfig) (tout : ℚ)
    (res : WorstCaseAnalysis)
    (h : analyze_worst_case_appliance piVal apps ccs mc tout = some res) :
    res.worst_case ∈ res.all_appliances ∧
    (∀ e ∈ res.all_appliances,
      res.worst_case.total_available_draft ≤ e.total_available_draft) ∧
    res.all_appliances.map (fun e => e.appliance) = apps ∧
    res.all_appliances.length = apps.length ∧
    ∀ e ∈ res.all_appliances,
      e.total_available_draft = e.connector_draft + e.manifold_draft ∧
      e.connector_draft = e.connector_result.connector.available_draft_inwc ∧
      e.manifold_draft = e.manifold_result.common_vent.available_draft_inwc ∧
      analyze_manifold_system piVal apps mc tout "all" = some e.manifold_result ∧
      ∃ cc ∈ ccs, analyze_connector piVal e.appliance cc tout = some e.connector_result := by
  rw [analyze_worst_case_appliance] at h
  cases hr : worst_case_rows piVal apps mc tout apps ccs 1 with
  | none =>
    rw [hr] at h
    exact Option.noConfusion h
  | some rows =>
    rw [hr] at h
    cases rows with
    | nil => exact Option.noConfusion h
    | cons e rest =>
      obtain rfl : res = ⟨min_by_total e rest, e :: rest⟩ := (Option.some.inj h).symm
      obtain ⟨hmap, hfields⟩ := worst_case_rows_spec piVal apps mc tout apps ccs 1 _ hr
      refine ⟨min_by_total_mem e rest, min_by_total_le e rest, hmap, ?_, hfields⟩
      rw [← hmap, List.length_map]

/-- Witness machinery: the combustion pipeline succeeds on the default
fuel. -/
theorem cfm_opt_default_isSome (mbh co2 t : ℚ) :
    ∃ c, cfm_from_combustion_opt mbh co2 t "natural_gas" = some c := by
  rw [cfm_from_combustion_opt, cfm_from_combustion,
    mass_flow_from_fuel_input, if_pos (by decide)]
  exact ⟨_, rfl⟩

/-- Witness machinery: `calculate_combined_cfm` succeeds on any nonempty
all-default-fuel appliance list. -/
theorem calculate_combined_cfm_isSome (apps : List Appliance)
    (hf : ∀ a ∈ apps, a.fuel_type = none) (hne : apps ≠ []) :
    ∃ r, calculate_combined_cfm apps = some r := by
  have hrows : ∀ (l : List Appliance), (∀ a ∈ l, a.fuel_type = none) → ∀ i,
      ∃ rows, appliance_rows l i = some rows := by
    intro l
    induction l with
    | nil => exact fun _ i => ⟨[], rfl⟩
    | cons a rest ih =>
      intro hl i
      obtain ⟨c, hc⟩ := cfm_opt_default_isSome a.mbh a.co2_percent a.temp_f
      obtain ⟨rows', hrows'⟩ := ih (fun x hx => hl x (List.mem_cons_of_mem _ hx)) (i + 1)
      have hfa : a.fuel_type = none := hl a (List.mem_cons_self _ _)
      have hstep : appliance_rows (a :: rest) i =
          some (⟨i, a.mbh, c.cfm, c.mass_flow_lbm_min, a.temp_f, a.temp_f + 459.67,
            a.category.getD "custom"⟩ :: rows') := by
        rw [appliance_rows, hfa]
        show (cfm_from_combustion_opt a.mbh a.co2_percent a.temp_f "natural_gas").bind _ = _
        rw [hc, hrows']
        rfl
      exact ⟨_, hstep⟩
  obtain ⟨rows, hrows⟩ := hrows apps hf 1
  rw [calculate_combined_cfm, hrows]
  dsimp only
  by_cases hpos : 0 < (rows.map (fun e => e.mass_flow_lbm_min)).sum
  · rw [if_pos hpos]
    exact ⟨_, rfl⟩
  · rw [if_neg hpos]
    cases apps with
    | nil => exact absurd rfl hne
    | cons a rest => exact ⟨_, rfl⟩


/-- The `all` selection keeps every appliance. -/
theorem select_operating_all (apps : List Appliance) :
    select_operating apps "all" = some apps := by
  rw [select_operating.eq_def, if_pos rfl]

/-- Witness machinery: connector analysis succeeds on the default fuel. -/
theorem analyze_connector_isSome (piVal : ℚ) (app : Appliance)
    (cc : ConnectorConfig) (tout : ℚ) (hf : app.fuel_type = none) :
    ∃ r, analyze_connector piVal app cc tout = some r := by
  obtain ⟨c, hc⟩ := cfm_opt_default_isSome app.mbh app.co2_percent app.temp_f
  rw [analyze_connector, hf]
  simp only [Option.getD_none]
  rw [hc]
  exact ⟨_, rfl⟩

/-- Witness machinery: the manifold `all` analysis succeeds on a nonempty
default-fuel appliance list. -/
theorem analyze_manifold_all_isSome (piVal : ℚ) (apps : List Appliance)
    (mc : ManifoldConfig) (tout : ℚ)
    (hf : ∀ a ∈ apps, a.fuel_type = none) (hne : apps ≠ []) :
    ∃ r, analyze_manifold_system piVal apps mc tout "all" = some r := by
  obtain ⟨comb, hcomb⟩ := calculate_combined_cfm_isSome apps hf hne
  have hstep : analyze_manifold_system piVal apps mc tout "all" =
      some ⟨"all", apps.length, comb,
        analyze_system piVal comb.total_cfm mc.diameter_inches mc.height_ft
          mc.length_ft comb.weighted_avg_temp_f tout mc.fittings none, apps⟩ := by
    rw [analyze_manifold_system, select_operating_all]
    show (calculate_combined_cfm apps).bind _ = _
    rw [hcomb]
    rfl
  exact ⟨_, hstep⟩

/-- Witness machinery: the worst-case row loop succeeds when every
appliance has a connector config and the default fuel. -/
theorem worst_case_rows_isSome (piVal : ℚ) (apps : List Appliance)
    (mc : ManifoldConfig) (tout : ℚ)
    (hf : ∀ a ∈ apps, a.fuel_type = none) (hne : apps ≠ []) :
    ∀ (apps' : List Appliance) (ccs : List ConnectorConfig) (i : ℕ),
      (∀ a ∈ apps', a.fuel_type = none) → apps'.length ≤ ccs.length →
      ∃ rows, worst_case_rows piVal apps mc tout apps' ccs i = some rows := by
  intro apps'
  induction apps' with
  | nil => exact fun ccs i _ _ => ⟨[], by rw [worst_case_rows]⟩
  | cons a as ih =>
    intro ccs i hf' hlen
    cases ccs with
    | nil => simp at hlen
    | cons c cs =>
      obtain ⟨conn, hconn⟩ := analyze_connector_isSome piVal a c tout
        (hf' a (List.mem_cons_self _ _))
      obtain ⟨mani, hmani⟩ := analyze_manifold_all_isSome piVal apps mc tout hf hne
      obtain ⟨rest, hrest⟩ := ih cs (i + 1)
        (fun x hx => hf' x (List.mem_cons_of_mem _ hx))
        (by simpa using Nat.succ_le_succ_iff.mp (by simpa using hlen))
      have hstep : worst_case_rows piVal apps mc tout (a :: as) (c :: cs) i =
          some (⟨i, a, conn.connector.available_draft_inwc,
            mani.common_vent.available_draft_inwc,
            conn.connector.available_draft_inwc +
              mani.common_vent.available_draft_inwc, conn, mani⟩ :: rest) := by
        rw [worst_case_rows, hconn, hmani, hrest]
        rfl
      exact ⟨_, hstep⟩

/-- Witness machinery: the full worst-case analysis succeeds. -/
theorem analyze_worst_case_isSome (piVal : ℚ) (apps : List Appliance)
    (ccs : List ConnectorConfig) (mc : ManifoldConfig) (tout : ℚ)
    (hf : ∀ a ∈ apps, a.fuel_type = none) (hne : apps ≠ [])
    (hlen : apps.length ≤ ccs.length) :
    ∃ res, analyze_worst_case_appliance piVal apps ccs mc tout = some res := by
  obtain ⟨rows, hrows⟩ := worst_case_rows_isSome piVal apps mc tout hf hne apps ccs 1 hf hlen
  obtain ⟨hmap, -⟩ := worst_case_rows_spec piVal apps mc tout apps ccs 1 rows hrows
  cases rows with
  | nil =>
    cases apps with
    | nil => exact absurd rfl hne
    | cons a as => exact absurd hmap (by simp)
  | cons e rest =>
    have hstep : analyze_worst_case_appliance piVal apps ccs mc tout =
        some ⟨min_by_total e rest, e :: rest⟩ := by
      rw [analyze_worst_case_appliance, hrows]
      rfl
    exact ⟨_, hstep⟩

/-- Witness for C1: two default-fuel appliances with connector configs;
the analysis succeeds, the worst case is a breakdown entry of minimal
total available draft, and the breakdown covers both appliances. -/
theorem worst_case_spec_witness :
    ∃ res, analyze_worst_case_appliance 3 [⟨100, 9, 300, none, none⟩, ⟨150, 9, 350, none, none⟩]
        [⟨4, 10, none, []⟩, ⟨5, 8, none, []⟩] ⟨10, 30, 35, []⟩ 70 = some res ∧
      res.worst_case ∈ res.all_appliances ∧
      (∀ e ∈ res.all_appliances,
        res.worst_case.total_available_draft ≤ e.total_available_draft) ∧
      res.all_appliances.length = 2 := by
  have hfuel : ∀ a ∈ [(⟨100, 9, 300, none, none⟩ : Appliance), ⟨150, 9, 350, none, none⟩],
      a.fuel_type = none := by
    intro a ha
    rcases List.mem_cons.mp ha with rfl | ha'
    · rfl
    · rcases List.mem_cons.mp ha' with rfl | ha''
      · rfl
      · exact absurd ha'' (List.not_mem_nil a)
  obtain ⟨res, hres⟩ := analyze_worst_case_isSome 3
    [⟨100, 9, 300, none, none⟩, ⟨150, 9, 350, none, none⟩]
    [⟨4, 10, none, []⟩, ⟨5, 8, none, []⟩] ⟨10, 30, 35, []⟩ 70
    hfuel (by simp) (by simp)
  have h := worst_case_spec 3 [⟨100, 9, 300, none, none⟩, ⟨150, 9, 350, none, none⟩]
    [⟨4, 10, none, []⟩, ⟨5, 8, none, []⟩] ⟨10, 30, 35, []⟩ 70 res hres
  exact ⟨res, hres, h.1, h.2.1, by rw [h.2.2.2.1]; rfl⟩


/-- Reduction lemma for `Option` binds arising from `do` blocks. -/
theorem opt_bind_some {A B : Type} (a : A) (f : A → Option B) :
    (some a >>= f : Option B) = f a := rfl

/-- Deconstruction of a successful `analyze_connector` run. -/
theorem analyze_connector_some (piVal : ℚ) (app : Appliance)
    (cc : ConnectorConfig) (tout : ℚ) (res : ConnectorResult)
    (h : analyze_connector piVal app cc tout = some res) :
    ∃ comb, cfm_from_combustion_opt app.mbh app.co2_percent app.temp_f
        (app.fuel_type.getD "natural_gas") = some comb ∧
      res = ⟨analyze_system piVal comb.cfm cc.diameter_inches (cc.height_ft.getD 0)
        cc.length_ft app.temp_f tout cc.fittings none, comb.cfm, app⟩ := by
  rw [analyze_connector] at h
  cases hc : cfm_from_combustion_opt app.mbh app.co2_percent app.temp_f
      (app.fuel_type.getD "natural_gas") with
  | none =>
    rw [hc] at h
    exact Option.noConfusion h
  | some comb =>
    rw [hc] at h
    exact ⟨comb, rfl, (Option.some.inj h).symm⟩

/-- Deconstruction of a successful `analyze_manifold_system` run. -/
theorem analyze_manifold_some (piVal : ℚ) (apps : List Appliance)
    (mc : ManifoldConfig) (tout : ℚ) (mode : String) (res : ManifoldResult)
    (h : analyze_manifold_system piVal apps mc tout mode = some res) :
    ∃ operating combined, select_operating apps mode = some operating ∧
      calculate_combined_cfm operating = some combined ∧
      res = ⟨mode, operating.length, combined,
        analyze_system piVal combined.total_cfm mc.diameter_inches mc.height_ft
          mc.length_ft combined.weighted_avg_temp_f tout mc.fittings none,
        operating⟩ := by
  rw [analyze_manifold_system] at h
  cases h1 : select_operating apps mode with
  | none =>
    rw [h1] at h
    exact Option.noConfusion h
  | some operating =>
    rw [h1] at h
    simp only [opt_bind_some] at h
    cases h2 : calculate_combined_cfm operating with
    | none =>
      rw [h2] at h
      exact Option.noConfusion h
    | some combined =>
      rw [h2] at h
      simp only [opt_bind_some] at h
      exact ⟨operating, combined, rfl, h2, (Option.some.inj h).symm⟩

/-- Deconstruction of a successful `analyze_worst_case_appliance` run. -/
theorem analyze_worst_case_some (piVal : ℚ) (apps : List Appliance)
    (ccs : List ConnectorConfig) (mc : ManifoldConfig) (tout : ℚ)
    (res : WorstCaseAnalysis)
    (h : analyze_worst_case_appliance piVal apps ccs mc tout = some res) :
    ∃ rows, worst_case_rows piVal apps mc tout apps ccs 1 = some rows ∧
      res.all_appliances = rows := by
  rw [analyze_worst_case_appliance] at h
  cases hr : worst_case_rows piVal apps mc tout apps ccs 1 with
  | none =>
    rw [hr] at h
    exact Option.noConfusion h
  | some rows =>
    rw [hr] at h
    cases rows with
    | nil => exact Option.noConfusion h
    | cons e rest =>
      exact ⟨e :: rest, rfl, by rw [← Option.some.inj h]⟩

/-- Claim C10: `total_pressure_loss` never forwards a vent type — it equals
`pressure_loss` at vent type `None` with zero extras, hence uses the
generic profile (base friction 0.3, vent type echoed as "Generic"); every
analysis reached through `analyze_system` (diameter selection, connector,
manifold scenarios, worst-case entries) therefore carries the generic
coefficients, while a direct `pressure_loss` call with the UL441 profile
uses that profile's base friction 0.40. -/
theorem total_pressure_loss_generic_spec (piVal v t cfm dia hft len tf tout minD : ℚ)
    (cfg : SystemConfig) (fits : List (String × ℚ)) (baro : Option ℚ)
    (app : Appliance) (cc : ConnectorConfig) (apps : List Appliance)
    (ccs : List ConnectorConfig) (mc : ManifoldConfig) (mode : String) :
    total_pressure_loss cfg v t =
      ⟨(pressure_loss cfg.length_ft cfg.diameter_inches (v * 60) t cfg.fittings none 0 0).friction,
       (pressure_loss cfg.length_ft cfg.diameter_inches (v * 60) t cfg.fittings none 0 0).fittings,
       (pressure_loss cfg.length_ft cfg.diameter_inches (v * 60) t cfg.fittings none 0 0).total,
       (pressure_loss cfg.length_ft cfg.diameter_inches (v * 60) t cfg.fittings none 0 0).fitting_breakdown,
       pressure_loss cfg.length_ft cfg.diameter_inches (v * 60) t cfg.fittings none 0 0⟩ ∧
    ((total_pressure_loss cfg v t).details.base_friction_factor = base_friction_factor ∧
     (total_pressure_loss cfg v t).details.vent_type = "Generic") ∧
    ((analyze_system piVal cfm dia hft len tf tout fits baro).loss_breakdown.details.base_friction_factor =
        base_friction_factor ∧
     (analyze_system piVal cfm dia hft len tf tout fits baro).loss_breakdown.details.vent_type =
        "Generic") ∧
    (∀ o ∈ (select_diameter piVal cfm hft tf tout cfg minD baro).all_options,
      o.loss_breakdown.details.base_friction_factor = base_friction_factor ∧
      o.loss_breakdown.details.vent_type = "Generic") ∧
    (∀ r, analyze_connector piVal app cc tout = some r →
      r.connector.loss_breakdown.details.base_friction_factor = base_friction_factor ∧
      r.connector.loss_breakdown.details.vent_type = "Generic") ∧
    (∀ r, analyze_manifold_system piVal apps mc tout mode = some r →
      r.common_vent.loss_breakdown.details.base_friction_factor = base_friction_factor ∧
      r.common_vent.loss_breakdown.details.vent_type = "Generic") ∧
    (∀ r, analyze_worst_case_appliance piVal apps ccs mc tout = some r →
      ∀ e ∈ r.all_appliances,
        e.connector_result.connector.loss_breakdown.details.vent_type = "Generic" ∧
        e.manifold_result.common_vent.loss_breakdown.details.vent_type = "Generic") ∧
    (pressure_loss len dia (v * 60) t fits (some "UL441 Type B Vent") 0 0).base_friction_factor =
      0.40 := by
  refine ⟨rfl, ⟨rfl, rfl⟩, ⟨rfl, rfl⟩, ?_, ?_, ?_, ?_, rfl⟩
  · intro o ho
    rcases select_diameter_cases piVal cfm hft tf tout cfg minD baro with
      ⟨sel, tl, hfil, hres⟩ | ⟨hfil, hres⟩ <;>
      rw [hres] at ho <;>
      · obtain ⟨d, hd, rfl⟩ := List.mem_map.mp ho
        exact ⟨rfl, rfl⟩
  · intro r hr
    obtain ⟨comb, -, rfl⟩ := analyze_connector_some piVal app cc tout r hr
    exact ⟨rfl, rfl⟩
  · intro r hr
    obtain ⟨operating, combined, -, -, rfl⟩ :=
      analyze_manifold_some piVal apps mc tout mode r hr
    exact ⟨rfl, rfl⟩
  · intro r hr e he
    obtain ⟨rows, hrows, hall⟩ := analyze_worst_case_some piVal apps ccs mc tout r hr
    rw [hall] at he
    obtain ⟨-, hfields⟩ := worst_case_rows_spec piVal apps mc tout apps ccs 1 rows hrows
    obtain ⟨-, -, -, hmani, cc', -, hconn⟩ := hfields e he
    obtain ⟨comb, -, hce⟩ :=
      analyze_connector_some piVal e.appliance cc' tout e.connector_result hconn
    obtain ⟨operating, combined, -, -, hme⟩ :=
      analyze_manifold_some piVal apps mc tout "all" e.manifold_result hmani
    exact ⟨by rw [hce]; rfl, by rw [hme]; rfl⟩

/-- Witness for C10 at concrete arguments, exercising the UL441 contrast. -/
theorem total_pressure_loss_generic_spec_witness :
    (total_pressure_loss ⟨25, 6, [("90_elbow", 2)]⟩ 10 400).details.base_friction_factor =
      base_friction_factor ∧
    (pressure_loss 25 6 (10 * 60) 400 [("90_elbow", 2)]
      (some "UL441 Type B Vent") 0 0).base_friction_factor = 0.40 :=
  ⟨((total_pressure_loss_generic_spec 3 10 400 500 6 20 25 400 70 0.02
      ⟨25, 6, [("90_elbow", 2)]⟩ [("90_elbow", 2)] none
      ⟨100, 9, 300, none, none⟩ ⟨4, 10, none, []⟩ [] [] ⟨10, 30, 35, []⟩ "all").2.1).1,
   (total_pressure_loss_generic_spec 3 10 400 500 6 20 25 400 70 0.02
      ⟨25, 6, [("90_elbow", 2)]⟩ [("90_elbow", 2)] none
      ⟨100, 9, 300, none, none⟩ ⟨4, 10, none, []⟩ [] [] ⟨10, 30, 35, []⟩ "all").2.2.2.2.2.2.2⟩
